import Mathlib

/-!
# Verification of the TBS-Instagram-Bot conversation orchestration engine

Shallow embedding, in Lean 4, of the parts of the repository that the
specification's testable properties talk about:

* `utils/validators.py` (phone validation, C10);
* `services/webhook_service.py` `_safe_bool` (C9), `_validate_and_format_date`
  (C6), `_get_missing_fields_from_deal`, `_get_changed_fields_from_deal`,
  `_smart_clean_message`, `_generate_clean_message_for_missing_fields`,
  the existing-user / existing-deal branch of `_handle_user_message_flow`
  (C2, C3, C4, C5, C6), and `_handle_post_request` (C1, C7);
* `repository/deal_repository.py` `update_deal_fields` and
  `update_deal_fields_force` (C2..C6);
* `repository/processed_message_repository.py` `mark_message_as_processed`
  and `is_message_processed` (C1, C7);
* `services/instagram_service.py` `send_instagram_message` and
  `_handle_token_refresh_and_retry` together with
  `services/token_refresh_service.py` (C8).

External collaborators (the OpenAI extraction service, the Instagram graph
API, the SQL store, the geocoding heuristic) are modelled as explicit
function parameters; the database row for a lead is modelled as a `Deal`
value threaded through the handler, and every mutation goes through the
embedded repository functions exactly as in the source.
-/

namespace TBSBot

/-! ## Python value model (used by `_safe_bool` and `is_valid_phone_number`) -/

/-- A Python runtime value, restricted to the shapes that can reach the two
defensive helpers: `None`, `bool`, `int`, `float` (modelled as a rational,
which is enough to decide truthiness), `bytes` (a list of byte values) and
`str`. -/
inductive PyVal where
  | none : PyVal
  | bool (b : Bool) : PyVal
  | int (n : Int) : PyVal
  | float (q : Rat) : PyVal
  | bytes (bs : List Nat) : PyVal
  | str (s : String) : PyVal
  deriving Repr, DecidableEq

/-- Python `int.from_bytes(value, byteorder='big')`. -/
def intFromBytesBig (bs : List Nat) : Nat :=
  bs.foldl (fun acc b => acc * 256 + b) 0

/-- Python truthiness `bool(value)` for the values of `PyVal`. -/
def pyTruthy : PyVal → Bool
  | .none => false
  | .bool b => b
  | .int n => n != 0
  | .float q => q != 0
  | .bytes bs => bs != []
  | .str s => s != ""

/-- Python `isinstance(value, str)`. -/
def pyIsStr : PyVal → Bool
  | .str _ => true
  | _ => false

/-- Python `str(value)` for the non-`str`, non-`bytes` values that can reach
the final branch of `_safe_bool` (in the source only strings and exotic
driver types reach it; our value model leaves exactly strings there). -/
def pyStr : PyVal → String
  | .str s => s
  | .none => "None"
  | .bool true => "True"
  | .bool false => "False"
  | .int n => toString n
  | .float q => toString q
  | .bytes _ => "bytes"

/-- ASCII lowercase conversion of one character (Python `str.lower` on the
alphabets the source manipulates). -/
def lowerChar (c : Char) : Char :=
  if c == 'A' then 'a' else if c == 'B' then 'b' else if c == 'C' then 'c'
  else if c == 'D' then 'd' else if c == 'E' then 'e' else if c == 'F' then 'f'
  else if c == 'G' then 'g' else if c == 'H' then 'h' else if c == 'I' then 'i'
  else if c == 'J' then 'j' else if c == 'K' then 'k' else if c == 'L' then 'l'
  else if c == 'M' then 'm' else if c == 'N' then 'n' else if c == 'O' then 'o'
  else if c == 'P' then 'p' else if c == 'Q' then 'q' else if c == 'R' then 'r'
  else if c == 'S' then 's' else if c == 'T' then 't' else if c == 'U' then 'u'
  else if c == 'V' then 'v' else if c == 'W' then 'w' else if c == 'X' then 'x'
  else if c == 'Y' then 'y' else if c == 'Z' then 'z' else c

/-- Python `s.lower()`. -/
def pyLower (s : String) : String := ⟨s.data.map lowerChar⟩

/-- Embedding of `webhook_service._safe_bool` (lines 410-426): defensive
coercion of a driver-decoded boolean column value to a Python `bool`.
`None -> False`; `bool` passes through; `int`/`float` via truthiness;
`bytes` via `int.from_bytes(value, 'big')`; anything else via
`str(value).lower() in ('true', '1', 'yes', 'on')`. -/
def safeBool (value : PyVal) : Bool :=
  match value with
  | .none => false
  | .bool b => b
  | .int n => n != 0
  | .float q => q != 0
  | .bytes bs => intFromBytesBig bs != 0
  | v => let s := pyLower (pyStr v)
         s == "true" || s == "1" || s == "yes" || s == "on"

/-! ## `utils/validators.py` -/

/-- A Python exception, as far as the embedded functions need to
distinguish outcomes. -/
inductive PyErr where
  | nameError (missing : String) : PyErr
  | typeError : PyErr
  | attributeError : PyErr
  deriving Repr, DecidableEq

/-- Embedding of `utils/validators.is_valid_phone_number`.  The module body
of `validators.py` contains no `import` statement at all, so the names
`re.sub` and `re.match` used on lines 7 and 18 resolve against the module's
globals, find nothing, and raise `NameError: name 're' is not defined` as
soon as the early-return guard (empty / non-string input) is passed.  The
guard itself (`if not phone_number or not isinstance(phone_number, str)`)
evaluates without touching `re`. -/
def is_valid_phone_number (phone_number : PyVal) : Except PyErr Bool :=
  if !(pyTruthy phone_number) || !(pyIsStr phone_number) then
    .ok false
  else
    .error (.nameError "re")

/-! ## String helpers mirroring the Python string operations used -/

/-- `listStarts needle hay`: `hay` begins with `needle`. -/
def listStarts : List Char → List Char → Bool
  | [], _ => true
  | _ :: _, [] => false
  | a :: as, b :: bs => a == b && listStarts as bs

/-- `listHasSub needle hay`: `needle` occurs contiguously inside `hay`
(Python's `needle in hay`). -/
def listHasSub (needle : List Char) : List Char → Bool
  | [] => listStarts needle []
  | c :: rest => listStarts needle (c :: rest) || listHasSub needle rest

/-- Python `needle in hay` on strings. -/
def strHasSub (hay needle : String) : Bool := listHasSub needle.data hay.data

def trimLeftList : List Char → List Char
  | [] => []
  | c :: r => if c.isWhitespace then trimLeftList r else c :: r

/-- Python `s.strip()`. -/
def pyStrip (s : String) : String :=
  ⟨(trimLeftList (trimLeftList s.data).reverse).reverse⟩

/-- `listReplace l pat sub`: Python `str.replace` over character lists
(left-to-right, non-overlapping, all occurrences). -/
def listReplace : List Char → List Char → List Char → List Char
  | [], _, _ => []
  | c :: r, pat, sub =>
      if pat ≠ [] && listStarts pat (c :: r) then
        sub ++ listReplace (r.drop (pat.length - 1)) pat sub
      else
        c :: listReplace r pat sub
  termination_by l _ _ => l.length
  decreasing_by
  all_goals simp only [List.length_cons, List.length_drop]
  all_goals omega

/-- Python `s.replace(pat, sub)`. -/
def pyReplace (s pat sub : String) : String := ⟨listReplace s.data pat.data sub.data⟩

/-- Python `needle in hay.lower()` (the needle literals in the source are
already lowercase). -/
def lowHas (hay needle : String) : Bool := strHasSub (pyLower hay) needle

/-! ## `_validate_and_format_date` (webhook_service.py lines 319-383) -/

/-- Python regex `\w` (ASCII portion, which is all the source's inputs use). -/
def isWordChar (c : Char) : Bool := c.isAlphanum || c == '_'

/-- Matches `re.match(r'^\d{4}-\d{2}-\d{2}$', s)`. -/
def isYYYYMMDD (s : String) : Bool :=
  match s.data with
  | [a, b, c, d, h1, e, f, h2, g, i] =>
      a.isDigit && b.isDigit && c.isDigit && d.isDigit && h1 == '-' &&
      e.isDigit && f.isDigit && h2 == '-' && g.isDigit && i.isDigit
  | _ => false

/-- The twelve lowercase month-name stems of the source's regexes. -/
def monthStems : List String :=
  ["jan", "feb", "mar", "apr", "may", "jun", "jul", "aug", "sep", "oct", "nov", "dec"]

/-- One of the month stems starts at the head of `l`. -/
def monthAt (l : List Char) : Bool := monthStems.any fun m => listStarts m.data l

/-- After at least one whitespace character, skip the rest of the
whitespace run and require a month stem (`\s+(jan|...)`). -/
def skipWsThenMonth : List Char → Bool
  | [] => false
  | c :: r => if c.isWhitespace then skipWsThenMonth r else monthAt (c :: r)

def wsThenMonth : List Char → Bool
  | [] => false
  | c :: r => c.isWhitespace && skipWsThenMonth r

/-- `(?:st|nd|rd|th)?\s+(jan|...)`: the optional ordinal suffix is consumed
when present (when present but not consumed, the following `\s+` cannot
match a letter, so no match is lost by committing to it). -/
def suffixWsMonth (l : List Char) : Bool :=
  let l' := match l with
    | 's' :: 't' :: r => r
    | 'n' :: 'd' :: r => r
    | 'r' :: 'd' :: r => r
    | 't' :: 'h' :: r => r
    | r => r
  wsThenMonth l'

/-- Scanner for `re.search(r'\b\d{1,2}(?:st|nd|rd|th)?\s+(jan|...)\w*\b', s,
re.IGNORECASE)` over the lowercased character list; the first argument
records whether the previous character was a word character (for the
leading `\b`).  The trailing `\w*\b` always succeeds (match the maximal
word-character run). -/
def dayMonthScan : Bool → List Char → Bool
  | _, [] => false
  | prevWord, c :: r =>
      (!prevWord && c.isDigit &&
        (suffixWsMonth r ||
          (match r with
           | d :: r' => d.isDigit && suffixWsMonth r'
           | [] => false))) ||
      dayMonthScan (isWordChar c) r

def hasDayMonthRe (s : String) : Bool := dayMonthScan false (pyLower s).data

/-- Scanner for `re.search(r'\b20\d{2}\b', s)`. -/
def year20Scan : Bool → List Char → Bool
  | _, [] => false
  | prevWord, c :: r =>
      (!prevWord && c == '2' &&
        (match r with
         | '0' :: d1 :: d2 :: rest =>
             d1.isDigit && d2.isDigit &&
             (match rest with
              | [] => true
              | x :: _ => !isWordChar x)
         | _ => false)) ||
      year20Scan (isWordChar c) r

def hasYear20 (s : String) : Bool := year20Scan false s.data

/-- Embedding of `webhook_service._validate_and_format_date`.  Empty (or
whitespace-only) input yields `""`; input already in `YYYY-MM-DD` form is
returned unchanged; a day+month-name reference without a `20xx` year is
rejected to `""`.  The remaining tail of the source (the `strptime` format
list and the `dateutil` fuzzy fallback, lines 336-383) is a pure function
of the trimmed string and is abstracted as the `parseTail` parameter; all
theorems below either quantify over it or instantiate it. -/
def validateDate (parseTail : String → String) (date_str : String) : String :=
  if (pyStrip date_str) == "" then ""
  else
    let d := (pyStrip date_str)
    if isYYYYMMDD d then d
    else if hasDayMonthRe d && !hasYear20 d then ""
    else parseTail d

/-! ## The Lead / Deal state (models/deal.py columns used by the core) -/

/-- The persisted Deal row, restricted to the columns the conversation core
reads and writes.  `None` string columns are modelled as `""`; the model
has no `full_name` or `city` column (the source's `Deal` model indeed has
neither: full names are stored in `user_name`, and `getattr(deal, 'city',
...)`/`getattr(deal, 'full_name', ...)` fall back to their defaults). -/
structure Deal where
  user_name : String := ""
  event_type : String := ""
  event_date : String := ""
  venue : String := ""
  phone_number : String := ""
  event_date_asked : Bool := false
  venue_asked : Bool := false
  contact_number_asked : Bool := false
  final_thank_you_sent : Bool := false
  deriving Repr, DecidableEq

/-- The keyword arguments accepted by `update_deal_fields` /
`update_deal_fields_force`.  `none` models an absent key (or an explicit
`None` value, which is falsy exactly like an absent key at every use
site); the `city` key is passed by the webhook service but the repository
function has no branch for it, so it is silently ignored. -/
structure DealKwargs where
  full_name : Option String := none
  event_type : Option String := none
  event_date : Option String := none
  venue : Option String := none
  phone_number : Option String := none
  city : Option String := none
  final_thank_you_sent : Option Bool := none
  contact_number_asked : Option Bool := none
  event_date_asked : Option Bool := none
  venue_asked : Option Bool := none
  deriving Repr, DecidableEq

/-- The write rule of `update_deal_fields` for `user_name`/`event_type`:
fill only while the stored value is empty (lines 148-154). -/
def fillIfEmpty (cur : String) : Option String → String
  | some v => if v != "" && pyStrip cur == "" then v else cur
  | none => cur

/-- The write rule of `update_deal_fields` for
`event_date`/`venue`/`phone_number`: write whenever the new value is truthy
and the stored value is empty or differs (lines 156-168). -/
def overwriteIfChanged (cur : String) : Option String → String
  | some v => if v != "" && (pyStrip cur == "" || cur != v) then v else cur
  | none => cur

/-- The write rule of `update_deal_fields` for the boolean flags: write the
coerced value whenever the key is present and the value differs (lines
170-196); the result is the given value whenever the key is present. -/
def setFlagOpt (cur : Bool) : Option Bool → Bool
  | some b => if cur != b then b else cur
  | none => cur

/-- Embedding of `deal_repository.update_deal_fields` (lines 136-257).
Each sequential write in the source guards only on the very column it
writes, so the sequence of in-place mutations equals this per-column
record.  There is no branch for a `city` keyword, so it is ignored.  The
stage-advancement and CRM side effects touch other tables and are outside
the Deal state; the success flag is `True` on every non-exception path. -/
def update_deal_fields (d : Deal) (kw : DealKwargs) : Deal :=
  { user_name := fillIfEmpty d.user_name kw.full_name
    event_type := fillIfEmpty d.event_type kw.event_type
    event_date := overwriteIfChanged d.event_date kw.event_date
    venue := overwriteIfChanged d.venue kw.venue
    phone_number := overwriteIfChanged d.phone_number kw.phone_number
    final_thank_you_sent := setFlagOpt d.final_thank_you_sent kw.final_thank_you_sent
    contact_number_asked := setFlagOpt d.contact_number_asked kw.contact_number_asked
    event_date_asked := setFlagOpt d.event_date_asked kw.event_date_asked
    venue_asked := setFlagOpt d.venue_asked kw.venue_asked }

/-- The write rule of `update_deal_fields_force` for strings: overwrite
whenever the new value is truthy. -/
def overwriteIfTruthy (cur : String) : Option String → String
  | some v => if v != "" then v else cur
  | none => cur

/-- The write rule of `update_deal_fields_force` for flags: overwrite
whenever the key is present. -/
def setFlagForce (cur : Bool) : Option Bool → Bool
  | some b => b
  | none => cur

/-- Embedding of `deal_repository.update_deal_fields_force` (lines
259-337): overwrites every field whose keyword value is truthy (strings)
or present (flags); again each write guards only on its own column. -/
def update_deal_fields_force (d : Deal) (kw : DealKwargs) : Deal :=
  { user_name := overwriteIfTruthy d.user_name kw.full_name
    event_type := overwriteIfTruthy d.event_type kw.event_type
    event_date := overwriteIfTruthy d.event_date kw.event_date
    venue := overwriteIfTruthy d.venue kw.venue
    phone_number := overwriteIfTruthy d.phone_number kw.phone_number
    final_thank_you_sent := setFlagForce d.final_thank_you_sent kw.final_thank_you_sent
    contact_number_asked := setFlagForce d.contact_number_asked kw.contact_number_asked
    event_date_asked := setFlagForce d.event_date_asked kw.event_date_asked
    venue_asked := setFlagForce d.venue_asked kw.venue_asked }

/-- `webhook_service._get_missing_fields_from_deal` (lines 502-517): the
required fields still empty, in the source's fixed order.  Note the source
tests `event_date` by bare truthiness but `venue`/`phone_number` by
truthiness-or-blank-after-strip. -/
def missingFieldsOf (d : Deal) : List String :=
  (if d.event_date == "" then ["event_date"] else []) ++
  (if (pyStrip d.venue) == "" then ["venue"] else []) ++
  (if (pyStrip d.phone_number) == "" then ["phone_number"] else [])

/-! ## The extraction collaborator's response -/

/-- The parsed response of the extraction collaborator
(`ai_service.get_response_with_json`).  Every return path of
`OpenAIService.get_response_with_json` (ad-decline, emoji short-circuit,
parsed JSON, `_parse_json_response`'s raw-text synthesis, and
`_get_fallback_response`) produces a dict containing `message_to_be_sent`,
so the handler's `isinstance(response, dict) and 'message_to_be_sent' in
response` guard always takes the main branch; absent keys default exactly
as the `.get` calls do. -/
structure AIResponse where
  message_to_be_sent : String
  contains_structured_data : Bool := false
  contains_valid_query : Bool := false
  is_greeting_message : Bool := false
  full_name : String := ""
  event_type : String := ""
  event_date : String := ""
  venue : String := ""
  phone_number : String := ""
  conversation_summary : String := ""
  deriving Repr, DecidableEq

/-- The `extracted_fields` dict built at webhook_service.py lines 880-886:
the five field values (the date already passed through
`_validate_and_format_date`), plus the `city` key that
`_enrich_extracted_fields_with_city` may add. -/
structure Extracted where
  full_name : String
  event_type : String
  event_date : String
  venue : String
  phone_number : String
  city : Option String := none
  deriving Repr, DecidableEq

def mkExtracted (parseTail : String → String) (resp : AIResponse) : Extracted :=
  { full_name := resp.full_name
    event_type := resp.event_type
    event_date := validateDate parseTail resp.event_date
    venue := resp.venue
    phone_number := resp.phone_number
    city := none }

/-- Embedding of `_enrich_extracted_fields_with_city` (lines 197-224).  The
`existing_city` check reads `getattr(deal, "city", "")`, and the Deal model
has no `city` column, so that early return never fires.  The OpenAI /
gazetteer city oracle is the `cityLookup` parameter; a `None` or empty
result adds nothing. -/
def enrichCity (cityLookup : String → Option String) (d : Deal) (ef : Extracted) : Extracted :=
  let venue := (pyStrip ef.venue)
  if venue == "" then ef
  else if (match ef.city with | some c => (pyStrip c) != "" | none => false) then ef
  else
    let current_venue := (pyStrip d.venue)
    if current_venue != "" && (pyLower current_venue) == (pyLower venue) then ef
    else match cityLookup venue with
      | some c => if c != "" then { ef with city := some c } else ef
      | none => ef

/-- A partial map over the extracted-field keys (a Python dict whose keys
are a subset of `full_name/event_type/event_date/venue/phone_number/city`). -/
structure FieldMap where
  full_name : Option String := none
  event_type : Option String := none
  event_date : Option String := none
  venue : Option String := none
  phone_number : Option String := none
  city : Option String := none
  deriving Repr, DecidableEq

/-- One entry of `_get_changed_fields_from_deal` (lines 520-550): skip
blank values, then compare case-insensitively after stripping; the stored
value is the unstripped new value. -/
def changedFieldVal (cur new : String) : Option String :=
  if (pyStrip new) == "" then none
  else if (pyLower (pyStrip cur)) != (pyLower (pyStrip new)) then some new
  else none

/-- `_get_changed_fields_from_deal(deal, extracted_fields)`.  For the
`full_name` and `city` keys `getattr(deal, field_name, None)` finds no such
column and falls back to `None`, i.e. the current value compares as `""`. -/
def changedFields (d : Deal) (ef : Extracted) : FieldMap :=
  { full_name := changedFieldVal "" ef.full_name
    event_type := changedFieldVal d.event_type ef.event_type
    event_date := changedFieldVal d.event_date ef.event_date
    venue := changedFieldVal d.venue ef.venue
    phone_number := changedFieldVal d.phone_number ef.phone_number
    city := match ef.city with
      | some c => changedFieldVal "" c
      | none => none }

/-- `{k: v for k, v in extracted_fields.items() if v and v.strip() and k in
missing_fields}` (lines 779-780 / 893-894). -/
def missingUpdates (ef : Extracted) (missing : List String) : FieldMap :=
  { full_name := if (pyStrip ef.full_name) != "" && missing.contains "full_name" then some ef.full_name else none
    event_type := if (pyStrip ef.event_type) != "" && missing.contains "event_type" then some ef.event_type else none
    event_date := if (pyStrip ef.event_date) != "" && missing.contains "event_date" then some ef.event_date else none
    venue := if (pyStrip ef.venue) != "" && missing.contains "venue" then some ef.venue else none
    phone_number := if (pyStrip ef.phone_number) != "" && missing.contains "phone_number" then some ef.phone_number else none
    city := match ef.city with
      | some c => if (pyStrip c) != "" && missing.contains "city" then some c else none
      | none => none }

/-- `{k: v for k, v in extracted_fields.items() if v and v.strip() and k
not in changed_fields and k not in missing_field_updates}` (783-784 /
897-898). -/
def fallbackUpdates (ef : Extracted) (ch mu : FieldMap) : FieldMap :=
  { full_name := if (pyStrip ef.full_name) != "" && ch.full_name == none && mu.full_name == none then some ef.full_name else none
    event_type := if (pyStrip ef.event_type) != "" && ch.event_type == none && mu.event_type == none then some ef.event_type else none
    event_date := if (pyStrip ef.event_date) != "" && ch.event_date == none && mu.event_date == none then some ef.event_date else none
    venue := if (pyStrip ef.venue) != "" && ch.venue == none && mu.venue == none then some ef.venue else none
    phone_number := if (pyStrip ef.phone_number) != "" && ch.phone_number == none && mu.phone_number == none then some ef.phone_number else none
    city := match ef.city with
      | some c => if (pyStrip c) != "" && ch.city == none && mu.city == none then some c else none
      | none => none }

/-- `{**changed_fields, **missing_field_updates, **fallback_extracted_fields}`:
a later dict's entry wins for shared keys. -/
def mergeFM (a b c : FieldMap) : FieldMap :=
  { full_name := (c.full_name.orElse fun _ => b.full_name.orElse fun _ => a.full_name)
    event_type := (c.event_type.orElse fun _ => b.event_type.orElse fun _ => a.event_type)
    event_date := (c.event_date.orElse fun _ => b.event_date.orElse fun _ => a.event_date)
    venue := (c.venue.orElse fun _ => b.venue.orElse fun _ => a.venue)
    phone_number := (c.phone_number.orElse fun _ => b.phone_number.orElse fun _ => a.phone_number)
    city := (c.city.orElse fun _ => b.city.orElse fun _ => a.city) }

/-- The combined `fields_to_update` of lines 776-787 / 889-901. -/
def fieldsToUpdate (d : Deal) (ef : Extracted) (missing : List String) : FieldMap :=
  let ch := changedFields d ef
  let mu := missingUpdates ef missing
  mergeFM ch mu (fallbackUpdates ef ch mu)

def fmIsEmpty (m : FieldMap) : Bool :=
  m.full_name == none && m.event_type == none && m.event_date == none &&
  m.venue == none && m.phone_number == none && m.city == none

/-- `update_deal_fields(deal.id, **fields_to_update)`. -/
def fmKwargs (m : FieldMap) : DealKwargs :=
  { full_name := m.full_name, event_type := m.event_type, event_date := m.event_date,
    venue := m.venue, phone_number := m.phone_number, city := m.city }

/-! ## Reply-text helpers (`_generate_clean_message_for_missing_fields`,
`_smart_clean_message`) -/

/-- `webhook_service._generate_clean_message_for_missing_fields`
(lines 436-454). -/
def cleanMessageForMissing (missing : List String) : String :=
  if missing == [] then "Thank you. Will connect shortly!"
  else
    let field_names :=
      (if missing.contains "event_date" then ["event date"] else []) ++
      (if missing.contains "venue" then ["venue"] else []) ++
      (if missing.contains "phone_number" then ["contact number"] else [])
    match field_names with
    | [a] => "Please share your " ++ a ++ " so we can assist you further."
    | [a, b] => "Please share your " ++ a ++ " and " ++ b ++ " so we can assist you further."
    | _ =>
        "Please share your " ++ String.intercalate ", " field_names.dropLast ++
        " and " ++ (field_names.getLast?.getD "") ++ " so we can assist you further."

def skipDigits : List Char → List Char
  | [] => []
  | c :: r => if c.isDigit then skipDigits r else c :: r

def skipWsChars : List Char → List Char
  | [] => []
  | c :: r => if c.isWhitespace then skipWsChars r else c :: r

/-- Scanner for `re.search(r'\d+\s*(jan|feb|...)', message, re.IGNORECASE)`
over the lowercased characters: at least one digit, any whitespace, a
month stem. -/
def dateRefScan : List Char → Bool
  | [] => false
  | c :: r => (c.isDigit && monthAt (skipWsChars (skipDigits r))) || dateRefScan r

def hasDateRef (message : String) : Bool := dateRefScan (pyLower message).data

def hasExtraContext (message : String) : Bool :=
  ["for", "on", "at", "in", "during", "place", "venue is"].any
    fun w => lowHas message w

/-- The comma/`and` cleanup pass shared by the three removal blocks of
`_smart_clean_message` (e.g. lines 476-477). -/
def punctCleanup (m : String) : String :=
  pyStrip (pyReplace (pyReplace (pyReplace (pyReplace m ", ," ",")
    "and ," "and") ", and" ",") "  " " ")

/-- Embedding of `webhook_service._smart_clean_message` (lines 456-500). -/
def smartClean (message : String) (missing : List String) : String :=
  if hasDateRef message || (hasExtraContext message && message.length > 70) then
    cleanMessageForMissing missing
  else
    let m := message
    let m := if !(missing.contains "event_date") && (lowHas m "event date" || lowHas m "date") then
        punctCleanup (pyReplace (pyReplace (pyReplace (pyReplace (pyReplace (pyReplace m
          "event date, " "") "event date and " "") "event date" "")
          "date, " "") "date and " "") "date" "")
      else m
    let m := if !(missing.contains "venue") && (lowHas m "venue" || lowHas m "location") then
        punctCleanup (pyReplace (pyReplace (pyReplace (pyReplace (pyReplace (pyReplace m
          "venue, " "") "venue and " "") "venue" "")
          "location, " "") "location and " "") "location" "")
      else m
    let m := if !(missing.contains "phone_number") &&
        (lowHas m "phone" || lowHas m "contact" || lowHas m "number") then
        punctCleanup (pyReplace (pyReplace (pyReplace (pyReplace (pyReplace (pyReplace
          (pyReplace (pyReplace (pyReplace (pyReplace (pyReplace (pyReplace m
          "contact number, " "") "contact number and " "") "contact number" "")
          "phone number, " "") "phone number and " "") "phone number" "")
          "phone, " "") "phone and " "") "phone" "")
          "contact, " "") "contact and " "") "contact" "")
      else m
    m

/-! ## The existing-user / existing-deal branch of `_handle_user_message_flow`
(webhook_service.py lines 553-1264 and the final `return True, "Processed"`
at line 3153) -/

/-- The external collaborators of the flow: the venue→city oracle, the
`strptime`/`dateutil` tail of the date validator, and the greeting
templates (from `greeting_template_repository` or the static fallback). -/
structure FlowEnv where
  cityLookup : String → Option String
  parseTail : String → String
  greetingTemplates : List String

/-- What one invocation of the flow produces: the persisted Deal state, the
outbound texts in order and the `(bool, str)` return value. -/
structure FlowResult where
  deal : Deal
  sent : List String
  ok : Bool
  result : String
  deriving Repr, DecidableEq

/-- The fixed final acknowledgment used on the completion path (line 941). -/
def ackOnCompletion : String := "Thank you. Will connect shortly!"

/-- The fixed acknowledgment of the already-complete early branch
(line 614). -/
def ackAllDetails : String := "Thank you for sharing all the details! will connect shortly!"

/-- Lines 604-637: every required field already collected.  Sends the
acknowledgment and raises the flag if it was not yet set, else stays
silent. -/
def flowComplete (d : Deal) : FlowResult :=
  if !d.final_thank_you_sent then
    ⟨update_deal_fields d { final_thank_you_sent := some true },
     [ackAllDetails], true, "Processed - Final thank you message sent"⟩
  else
    ⟨d, [], true, "Processed - No message sent (final thank you already sent)"⟩

/-- The quantities of the flag-refusal logic (lines 699-760).  `_safe_bool`
applied to a genuine boolean column value is the identity, so the asked
flags are read directly. -/
structure RefusalInfo where
  resetED : Bool
  resetV : Bool
  resetCN : Bool
  allFalse : Bool
  blockED : Bool
  blockV : Bool
  blockCN : Bool
  deriving Repr, DecidableEq

def refusalInfo (d : Deal) (resp : AIResponse) (missing : List String) : RefusalInfo :=
  let phoneProv := (pyStrip resp.phone_number) != ""
  let dateProv := (pyStrip resp.event_date) != ""
  let venueProv := (pyStrip resp.venue) != ""
  let resetED := d.event_date_asked && dateProv && missing.contains "event_date"
  let resetV := d.venue_asked && venueProv && missing.contains "venue"
  let resetCN := d.contact_number_asked && phoneProv && missing.contains "phone_number"
  let willCN := !d.contact_number_asked || (d.contact_number_asked && resetCN)
  let willED := !d.event_date_asked || (d.event_date_asked && resetED)
  let willV := !d.venue_asked || (d.venue_asked && resetV)
  { resetED := resetED, resetV := resetV, resetCN := resetCN
    allFalse := willCN && willED && willV
    blockED := d.event_date_asked && missing.contains "event_date" && !dateProv
    blockV := d.venue_asked && missing.contains "venue" && !venueProv
    blockCN := d.contact_number_asked && missing.contains "phone_number" && !phoneProv }

/-- The per-flag resets of `flags_to_reset` (applied at lines 803-814 in
the blocked branch and 828-839 in the continue branch), in the list's
construction order: event date, venue, contact number. -/
def resetProvidedFlags (d : Deal) (info : RefusalInfo) : Deal :=
  let d := if info.resetED then update_deal_fields d { event_date_asked := some false } else d
  let d := if info.resetV then update_deal_fields d { venue_asked := some false } else d
  if info.resetCN then update_deal_fields d { contact_number_asked := some false } else d

/-- `block_reason` is assigned by three successive `if`s (contact number,
then event date, then venue), so the last satisfied clause wins; the
returned text applies `str.title()`. -/
def blockedReason (info : RefusalInfo) : String :=
  if info.blockV then "Venue"
  else if info.blockED then "Event Date"
  else "Contact Number"

/-- Lines 762-822: the anti-nag blocked branch.  Extracted fields are still
persisted (with the date validated), flags of fields the user did provide
are reset, and no message is sent. -/
def blockedBranch (env : FlowEnv) (d : Deal) (resp : AIResponse) (missing : List String)
    (info : RefusalInfo) : FlowResult :=
  let ef := enrichCity env.cityLookup d (mkExtracted env.parseTail resp)
  let ftu := fieldsToUpdate d ef missing
  let d := if !(fmIsEmpty ftu) then update_deal_fields d (fmKwargs ftu) else d
  let d := resetProvidedFlags d info
  ⟨d, [], true, blockedReason info ++ " requested but not provided - no message sent"⟩

/-- The outcome of the field-update block (lines 876-1026): the Deal after
all updates/resets, the (possibly overridden or regenerated)
`message_to_send`, the reassigned `missing_fields`, and the
`fields_to_update` map (consulted again at line 1097). -/
structure MainOut where
  deal : Deal
  message : String
  missing : List String
  ftu : FieldMap
  deriving Repr, DecidableEq

/-- Lines 876-1026.  When fields were persisted: recompute the missing
list; if it just became empty, override the reply with the fixed
acknowledgment (the accompanying
`update_deal_fields_force(to_int(deal_id), final_thank_you_sent=True)` at
line 944 raises `NameError` — `deal_id` is never assigned on this branch —
inside `try/except Exception: pass`, so it has no effect); otherwise, if
the missing list changed, regenerate the reply through the collaborator
(`regen`).  The per-field asked-flag resets at lines 994-1008 run only
when `full_name` or `phone_number` is among the updated fields.  The
second repository call at lines 1016-1025 re-sends a subset of the same
values. -/
def mainStage (env : FlowEnv) (d : Deal) (resp regen : AIResponse)
    (missing : List String) : MainOut :=
  let ef := enrichCity env.cityLookup d (mkExtracted env.parseTail resp)
  let ftu := fieldsToUpdate d ef missing
  if !(fmIsEmpty ftu) then
    let d1 := if missing == [] then update_deal_fields_force d (fmKwargs ftu)
              else update_deal_fields d (fmKwargs ftu)
    let missing' := missingFieldsOf d1
    let msg :=
      if missing != [] && missing' == [] then ackOnCompletion
      else if missing != missing' then regen.message_to_be_sent
      else resp.message_to_be_sent
    let d2 :=
      if ftu.full_name.isSome || ftu.phone_number.isSome then
        let d2 := if ftu.phone_number.isSome then
            update_deal_fields d1 { contact_number_asked := some false } else d1
        let d2 := if ftu.event_date.isSome then
            update_deal_fields d2 { event_date_asked := some false } else d2
        if ftu.venue.isSome then
            update_deal_fields d2 { venue_asked := some false } else d2
      else d1
    let d3 :=
      if ftu.event_type.isSome || ftu.event_date.isSome || ftu.venue.isSome then
        update_deal_fields d2
          { event_type := ftu.event_type, event_date := ftu.event_date,
            venue := ftu.venue, phone_number := ftu.phone_number,
            full_name := ftu.full_name }
      else d2
    ⟨d3, msg, missing', ftu⟩
  else
    ⟨d, resp.message_to_be_sent, missing, ftu⟩

/-- The inline city-derivation of the thank-you save block (lines
1118-1125). -/
def cityFromVenueBlock (env : FlowEnv) (d : Deal) (venue : String) : Option String :=
  let current_venue := (pyStrip d.venue)
  let new_venue := (pyStrip venue)
  if new_venue != "" && (current_venue == "" || (pyLower current_venue) != (pyLower new_venue)) then
    match env.cityLookup new_venue with
    | some c => if c != "" then some c else none
    | none => none
  else none

/-- Lines 1095-1140: when the collaborator signalled structured data but no
field update was computed, and the reply is the fixed acknowledgment or a
greeting, the *raw* response values (the date NOT passed through
`_validate_and_format_date`) are written to the Deal. -/
def thankYouSave (env : FlowEnv) (d : Deal) (resp : AIResponse) (msg : String)
    (csd ftuEmpty : Bool) : Deal :=
  if csd && ftuEmpty && (msg == ackOnCompletion || resp.is_greeting_message) then
    let anyField := resp.full_name != "" || resp.event_type != "" ||
      resp.event_date != "" || resp.venue != "" || resp.phone_number != ""
    if anyField then
      update_deal_fields d
        { full_name := if resp.full_name != "" then some resp.full_name else none
          event_type := if resp.event_type != "" then some resp.event_type else none
          event_date := if resp.event_date != "" then some resp.event_date else none
          venue := if resp.venue != "" then some resp.venue else none
          city := if resp.venue != "" then cityFromVenueBlock env d resp.venue else none
          phone_number := if resp.phone_number != "" then some resp.phone_number else none }
    else d
  else d

/-- The keyword-driven asked-flag writes inside the greeting branch (lines
1163-1191; the event-date and venue blocks appear twice in the source, and
both copies are retained here). -/
def greetingFlagKeyword (d : Deal) (original : String) (missing : List String) : Deal :=
  let d := if missing.contains "phone_number" && lowHas original "contact number" then
      update_deal_fields d { contact_number_asked := some true } else d
  let d := if missing.contains "event_date" &&
      (lowHas original "event date" || lowHas original "date" || lowHas original "when") then
      update_deal_fields d { event_date_asked := some true } else d
  let d := if missing.contains "venue" &&
      (lowHas original "venue" || lowHas original "location" || lowHas original "where") then
      update_deal_fields d { venue_asked := some true } else d
  let d := if missing.contains "event_date" &&
      (lowHas original "event date" || lowHas original "date" || lowHas original "when") then
      update_deal_fields d { event_date_asked := some true } else d
  if missing.contains "venue" &&
      (lowHas original "venue" || lowHas original "location" || lowHas original "where") then
      update_deal_fields d { venue_asked := some true } else d

/-- Lines 1156-1227: the `GREETING_WITH_DATA` branch for an existing deal:
combine the static greeting with the (cleaned) original collaborator text,
or fall back to the greeting-template sequence. -/
def greetingBranch (env : FlowEnv) (d : Deal) (resp : AIResponse)
    (missing : List String) : FlowResult :=
  let original := resp.message_to_be_sent
  if original != "" && original != "GREETING_WITH_DATA" then
    let d := greetingFlagKeyword d original missing
    let combined :=
      if original == ackOnCompletion then
        "Hello! Thanks for reaching out✨ Will connect shortly!"
      else if missing == [] then
        "Hello! Thanks for reaching out✨ Will connect shortly!"
      else
        "Hello! Thanks for reaching out✨ " ++ smartClean original missing
    let d := if strHasSub original ackOnCompletion then
        update_deal_fields d { final_thank_you_sent := some true } else d
    ⟨d, [combined], true, "Processed - Greeting with data: combined message sent"⟩
  else
    ⟨d, env.greetingTemplates, true, "Processed - Greeting with data: combined message sent"⟩

/-- Lines 1235-1264: after sending, infer which field the outgoing text
asked for by keyword match and raise that field's asked flag (only for
still-missing fields). -/
def askedFlagSets (d : Deal) (msg : String) (missing : List String) : Deal :=
  let d := if msg != "GREETING_WITH_DATA" &&
      (lowHas msg "phone" || lowHas msg "contact" || lowHas msg "number") &&
      missing.contains "phone_number" then
      update_deal_fields d { contact_number_asked := some true } else d
  let d := if msg != "GREETING_WITH_DATA" &&
      (lowHas msg "event date" || lowHas msg "date" || lowHas msg "when") &&
      missing.contains "event_date" then
      update_deal_fields d { event_date_asked := some true } else d
  if msg != "GREETING_WITH_DATA" &&
      (lowHas msg "venue" || lowHas msg "location" || lowHas msg "where") &&
      missing.contains "venue" then
      update_deal_fields d { venue_asked := some true } else d

/-- Lines 640-1264: data collection for an existing deal with missing
required fields.  `contains_structured_data` is auto-corrected (686-690),
the flag-refusal logic runs (699-839), then the `NO_MESSAGE` sentinel
(843), the field-update block, the thank-you save, and the final dispatch
(acknowledgment / greeting / plain send plus asked-flag inference). -/
def flowAfterRefusal (env : FlowEnv) (d : Deal) (resp regen : AIResponse)
    (missing : List String) (csd : Bool) : FlowResult :=
  if resp.message_to_be_sent == "NO_MESSAGE" then
    ⟨d, [], true, "Processed - No message sent (all details collected)"⟩
  else
    let m := mainStage env d resp regen missing
    let d2 := thankYouSave env m.deal resp m.message csd (fmIsEmpty m.ftu)
    if m.message == ackOnCompletion then
      let d3 := update_deal_fields d2 { final_thank_you_sent := some true }
      ⟨askedFlagSets d3 m.message m.missing, [m.message], true, "Processed"⟩
    else if m.message == "GREETING_WITH_DATA" then
      greetingBranch env d2 resp m.missing
    else
      ⟨askedFlagSets d2 m.message m.missing, [m.message], true, "Processed"⟩

def flowCollect (env : FlowEnv) (d : Deal) (resp regen : AIResponse)
    (missing : List String) : FlowResult :=
  let csd := resp.contains_structured_data ||
    (pyStrip resp.venue) != "" || (pyStrip resp.event_date) != "" || (pyStrip resp.phone_number) != ""
  let info := refusalInfo d resp missing
  let anyFlag := d.contact_number_asked || d.event_date_asked || d.venue_asked
  if anyFlag && !info.allFalse && (info.blockCN || info.blockED || info.blockV) then
    blockedBranch env d resp missing info
  else
    flowAfterRefusal env
      (if anyFlag && !info.allFalse then resetProvidedFlags d info else d)
      resp regen missing csd

/-- The existing-user / existing-deal branch of
`_handle_user_message_flow`: the already-contacted short-circuit (576-579),
the essential-details early branch (600-637), else data collection. -/
def handle_user_message_flow (env : FlowEnv) (userAlreadyContacted : Bool)
    (d : Deal) (resp regen : AIResponse) : FlowResult :=
  if userAlreadyContacted then ⟨d, [], false, "User already contacted before"⟩
  else
    let missing := missingFieldsOf d
    if missing == [] then flowComplete d
    else flowCollect env d resp regen missing

/-! ## Deduplication ledger and the POST handler
(`processed_message_repository.py`, `_handle_post_request`) -/

/-- `is_message_processed`: a `ProcessedMessage` row with this id exists. -/
def is_message_processed (processed : List String) (mid : String) : Bool :=
  processed.contains mid

/-- Embedding of `mark_message_as_processed` (lines 16-44).  When a row
with this message id already exists, its text/vendor/username columns are
overwritten and the call returns `True` (the id set is unchanged).
Otherwise a new row is inserted; a concurrent transaction that inserted
the same id between the query and the commit surfaces as an
`IntegrityError` on the unique constraint, modelled by the `race` oracle:
the session is rolled back and the call returns `False`.  Otherwise the
insert commits and the call returns `True`. -/
def mark_message_as_processed (processed : List String) (mid : String) (race : Bool) :
    Bool × List String :=
  if processed.contains mid then (true, processed)
  else if race then (false, processed)
  else (true, mid :: processed)

/-- One webhook messaging event as `_handle_post_request` reads it. -/
structure WebhookEvent where
  sender_id : String
  recipient_id : String
  message_text : String
  message_id : String
  deriving Repr, DecidableEq

/-- Server-side persisted state visible to the handler: the dedup ledger
and the Deal rows (keyed by sender username). -/
structure ServerState where
  processed : List String
  deals : List (String × Deal)
  deriving DecidableEq

/-- What `_handle_user_message_flow` gives back to the handler. -/
structure FlowOut where
  state : ServerState
  sent : List String
  ok : Bool
  result : String

/-- The handler's external inputs: the payload-shape validation outcome,
the ingress-classifier outcome, whether a vendor matches the recipient id,
the concurrent-duplicate oracle for the ledger insert, and the occasional
ledger cleanup (lines 3264-3267, behind `random.randint(1,100) == 1`). -/
structure PostEnv where
  validateRes : Option String
  skip : Option String
  vendorFound : Bool
  race : Bool
  cleanupBit : Bool
  cleanupFn : List String → List String

/-- `(body, status)` of the handler plus the resulting server state and the
outbound sends of the whole request. -/
structure HandlerOut where
  body : String
  status : Nat
  state : ServerState
  sent : List String

/-- Embedding of `_handle_post_request` (lines 3175-3269): validate, run
the ingress skip checks, drop already-processed message ids, resolve the
vendor, mark the message id as processed (before any reply is generated or
sent), then run the message flow; a losing concurrent duplicate (mark
returns `False`) exits as a no-op.  The message flow is the abstract
`flow` parameter, so every theorem about the handler holds for the flow as
implemented. -/
def handle_post_request (env : PostEnv) (flow : ServerState → FlowOut)
    (st : ServerState) (ev : WebhookEvent) : HandlerOut :=
  match env.validateRes with
  | some msg => ⟨msg, 200, st, []⟩
  | none =>
  match env.skip with
  | some reason => ⟨reason, 200, st, []⟩
  | none =>
  if ev.message_id != "" && is_message_processed st.processed ev.message_id then
    ⟨"Message already processed", 200, st, []⟩
  else if !env.vendorFound then
    ⟨"No brideside user found", 400, st, []⟩
  else
    let marked :=
      if ev.message_id != "" then mark_message_as_processed st.processed ev.message_id env.race
      else (true, st.processed)
    if ev.message_id != "" && !marked.1 then
      ⟨"Message already processed by another brideside user", 200,
       { st with processed := marked.2 }, []⟩
    else
      let fo := flow { st with processed := marked.2 }
      if !fo.ok then ⟨fo.result, 500, fo.state, fo.sent⟩
      else
        let st' := if env.cleanupBit then
            { fo.state with processed := env.cleanupFn fo.state.processed }
          else fo.state
        ⟨fo.result, 200, st', fo.sent⟩

/-! ## The outbound dispatcher (`instagram_service.py`,
`token_refresh_service.py`) -/

/-- A parameter of a Python function signature: its name and whether it
carries a default value. -/
structure PyParam where
  name : String
  hasDefault : Bool
  deriving Repr, DecidableEq

/-- The signature of `send_instagram_message(sender_id, message,
brideside_user, message_id, sender_username, access_token=None,
user_id=None)`. -/
def sendMessageSig : List PyParam :=
  [⟨"sender_id", false⟩, ⟨"message", false⟩, ⟨"brideside_user", false⟩,
   ⟨"message_id", false⟩, ⟨"sender_username", false⟩,
   ⟨"access_token", true⟩, ⟨"user_id", true⟩]

/-- Python call binding: invoking a function whose signature is `sig` with
`nPos` positional arguments and the keyword names `kw` succeeds (no
`TypeError`) iff there are at most `sig.length` positional arguments,
every keyword names a parameter not already bound positionally, and every
parameter without a default is bound positionally or by keyword. -/
def pyCallBinds (sig : List PyParam) (nPos : Nat) (kw : List String) : Bool :=
  decide (nPos ≤ sig.length) &&
  kw.all (fun k => (sig.drop nPos).any fun p => p.name == k) &&
  (sig.drop nPos).all fun p => p.hasDefault || kw.contains p.name

/-- One call to the Instagram message-send endpoint. -/
structure GatewayCall where
  recipient : String
  text : String
  token : String
  deriving Repr, DecidableEq

/-- Transcript-level result of one `send_instagram_message` invocation:
the boolean outcome, the message-send gateway calls made, the tokens
passed to the refresh collaborator, and the credential persisted for the
vendor (if any). -/
structure DispatchResult where
  result : Bool
  gatewayCalls : List GatewayCall
  refreshCalls : List String
  persistedToken : Option String
  deriving Repr, DecidableEq

/-- Embedding of `TokenRefreshService.refresh_access_token` (lines 10-58):
call the platform refresh endpoint with the current token
(`refreshApi tok = some newTok` on success) and persist the new token for
the vendor (`update_brideside_vendor_access_token`) before returning it;
returns `(result, tokens handed to the refresh endpoint, persisted
token)`. -/
def refresh_access_token (refreshApi : String → Option String) (tok : String) :
    Option String × List String × Option String :=
  match refreshApi tok with
  | some newTok => (some newTok, [tok], some newTok)
  | none => (none, [tok], none)

/-- Embedding of `instagram_service._handle_token_refresh_and_retry`
(lines 15-48) specialised to its call site inside `send_instagram_message`
(lines 87-90).  `handle_token_refresh_if_needed` refreshes only when the
failed response body parses as an expired-token error (`isExpiredErr`).
After a successful refresh the wrapper evaluates
`retry_function(brideside_user.id, sender_id, message,
access_token=new_token)`; binding those arguments against
`send_instagram_message`'s seven-parameter signature leaves the required
parameters `message_id` and `sender_username` unbound, so the call raises
`TypeError` before the retried send can run; the surrounding
`except Exception` swallows it and the wrapper returns `None`.  (Were the
binding legal, `brideside_user` would be bound to the message *string* and
`brideside_user.ig_account_id` would raise `AttributeError` inside the
retried call's own `try/except`, returning `False`; that branch is dead
because the binding check is decidably false.) -/
def handle_token_refresh_and_retry (isExpiredErr : Bool)
    (refreshApi : String → Option String) (currentToken : String) :
    Option Bool × List String × Option String :=
  if !isExpiredErr then (none, [], none)
  else
    match refresh_access_token refreshApi currentToken with
    | (some _newTok, calls, persisted) =>
        let retry : Except PyErr Bool :=
          if pyCallBinds sendMessageSig 3 ["access_token"] then .ok false
          else .error .typeError
        match retry with
        | .ok b => (some b, calls, persisted)
        | .error _ => (none, calls, persisted)
    | (none, calls, persisted) => (none, calls, persisted)

/-- Embedding of `instagram_service.send_instagram_message` (lines 51-97):
POST to the graph endpoint; 200 means success; on 401/403 (with a
tenant-specific token and user id available) delegate to the
refresh-and-retry wrapper, translating its `None` to `False`; any other
status or exception yields `False`. -/
def send_instagram_message (gatewayStatus : GatewayCall → Nat)
    (isExpiredErr : Bool) (refreshApi : String → Option String)
    (hasUserId hasAccessToken : Bool)
    (recipient text token : String) : DispatchResult :=
  let call : GatewayCall := ⟨recipient, text, token⟩
  let status := gatewayStatus call
  if status == 200 then ⟨true, [call], [], none⟩
  else if hasUserId && hasAccessToken && (status == 401 || status == 403) then
    match handle_token_refresh_and_retry isExpiredErr refreshApi token with
    | (some b, rc, p) => ⟨b, [call], rc, p⟩
    | (none, rc, p) => ⟨false, [call], rc, p⟩
  else ⟨false, [call], [], none⟩

/-- Running a sequence of inbound messages against one lead: each element
carries the already-contacted check's outcome and the two collaborator
responses for that request; the result lists each request's outbound
sends. -/
def runFlowTrace (env : FlowEnv) : Deal → List (Bool × AIResponse × AIResponse) → List (List String)
  | _, [] => []
  | d, (c, resp, regen) :: rest =>
      let o := handle_user_message_flow env c d resp regen
      o.sent :: runFlowTrace env o.deal rest

/-! ## Concrete instantiations used by witnesses and counterexamples -/

/-- A trivial collaborator environment: no city oracle hits, a date-parse
tail that rejects everything, no greeting templates. -/
def envTriv : FlowEnv :=
  { cityLookup := fun _ => none, parseTail := fun _ => "", greetingTemplates := [] }

/-- A neutral second (regeneration) response. -/
def respNeutral : AIResponse := { message_to_be_sent := "Noted!" }

/-- The three required fields of a lead, used to state per-field laws. -/
inductive ReqField where
  | eventDate : ReqField
  | venue : ReqField
  | phoneNumber : ReqField
  deriving Repr, DecidableEq

/-- The field's key string as used in `missing_fields`. -/
def ReqField.key : ReqField → String
  | .eventDate => "event_date"
  | .venue => "venue"
  | .phoneNumber => "phone_number"

/-- The field's asked flag on the persisted lead. -/
def ReqField.asked (f : ReqField) (d : Deal) : Bool :=
  match f with
  | .eventDate => d.event_date_asked
  | .venue => d.venue_asked
  | .phoneNumber => d.contact_number_asked

/-- The field counts as still-empty on the persisted lead, with exactly the
semantics `_get_missing_fields_from_deal` uses per field. -/
def ReqField.emptyIn (f : ReqField) (d : Deal) : Bool :=
  match f with
  | .eventDate => d.event_date == ""
  | .venue => pyStrip d.venue == ""
  | .phoneNumber => pyStrip d.phone_number == ""

/-- The raw value the extraction response supplies for the field (what the
refusal logic reads via `response.get(...).strip()`). -/
def ReqField.supplied (f : ReqField) (resp : AIResponse) : String :=
  match f with
  | .eventDate => resp.event_date
  | .venue => resp.venue
  | .phoneNumber => resp.phone_number

/-- Handler environment for witness instantiations: well-formed payload, no
skip, vendor found, no concurrent duplicate, no cleanup. -/
def postEnvW : PostEnv :=
  { validateRes := none, skip := none, vendorFound := true, race := false,
    cleanupBit := false, cleanupFn := id }

/-- A message flow stub for witness instantiations. -/
def flowW : ServerState → FlowOut :=
  fun s => { state := s, sent := ["reply"], ok := true, result := "Processed" }

def stW : ServerState := { processed := ["mid-0"], deals := [] }

def evW : WebhookEvent :=
  { sender_id := "s1", recipient_id := "r1", message_text := "hi", message_id := "mid-0" }

def evW2 : WebhookEvent :=
  { sender_id := "s1", recipient_id := "r1", message_text := "hi", message_id := "mid-9" }

/-- Witness lead for the anti-nag law: venue asked, venue empty. -/
def dC2 : Deal := { venue_asked := true }

/-- Witness response for the anti-nag law: no venue supplied, phone
extracted. -/
def respC2 : AIResponse :=
  { message_to_be_sent := "Could you also share your venue?",
    contains_structured_data := true, phone_number := "9876543210" }

/-- Witness lead for Scenario B: only the phone number missing. -/
def dC5 : Deal :=
  { event_date := "2026-05-01", venue := "Taj Palace", venue_asked := false,
    contact_number_asked := true }

/-- Witness response for Scenario B: phone supplied. -/
def respC5 : AIResponse :=
  { message_to_be_sent := "Got it, thanks!", contains_structured_data := true,
    phone_number := "9876543210" }

/-- Witness lead for the monotonicity law: complete, flag set. -/
def dC4 : Deal :=
  { event_date := "2026-05-01", venue := "Taj Palace", phone_number := "9876543210",
    final_thank_you_sent := true }

/-! ## Basic lemmas about the repository write rules -/

@[simp] lemma fillIfEmpty_none (cur : String) : fillIfEmpty cur none = cur := rfl

@[simp] lemma overwriteIfChanged_none (cur : String) : overwriteIfChanged cur none = cur := rfl

@[simp] lemma overwriteIfTruthy_none (cur : String) : overwriteIfTruthy cur none = cur := rfl

@[simp] lemma setFlagOpt_none (cur : Bool) : setFlagOpt cur none = cur := rfl

@[simp] lemma setFlagForce_none (cur : Bool) : setFlagForce cur none = cur := rfl

@[simp] lemma setFlagForce_some (cur b : Bool) : setFlagForce cur (some b) = b := rfl

@[simp] lemma setFlagOpt_some (cur b : Bool) : setFlagOpt cur (some b) = b := by
  unfold setFlagOpt
  split <;> simp_all

lemma overwriteIfChanged_some (cur v : String) (h : v ≠ "") :
    overwriteIfChanged cur (some v) = v := by
  unfold overwriteIfChanged
  split <;> simp_all

lemma fillIfEmpty_some (cur v : String) (h1 : v ≠ "") (h2 : pyStrip cur = "") :
    fillIfEmpty cur (some v) = v := by
  unfold fillIfEmpty
  split <;> simp_all

lemma overwriteIfTruthy_some (cur v : String) (h : v ≠ "") :
    overwriteIfTruthy cur (some v) = v := by
  unfold overwriteIfTruthy
  simp [h]

/-! ## Accessor lemmas for the extraction stages -/

@[simp] lemma enrichCity_full_name (cl : String → Option String) (d : Deal) (ef : Extracted) :
    (enrichCity cl d ef).full_name = ef.full_name := by
  simp only [enrichCity]
  repeat first
  | rfl
  | split

@[simp] lemma enrichCity_event_type (cl : String → Option String) (d : Deal) (ef : Extracted) :
    (enrichCity cl d ef).event_type = ef.event_type := by
  simp only [enrichCity]
  repeat first
  | rfl
  | split

@[simp] lemma enrichCity_event_date (cl : String → Option String) (d : Deal) (ef : Extracted) :
    (enrichCity cl d ef).event_date = ef.event_date := by
  simp only [enrichCity]
  repeat first
  | rfl
  | split

@[simp] lemma enrichCity_venue (cl : String → Option String) (d : Deal) (ef : Extracted) :
    (enrichCity cl d ef).venue = ef.venue := by
  simp only [enrichCity]
  repeat first
  | rfl
  | split

@[simp] lemma enrichCity_phone_number (cl : String → Option String) (d : Deal) (ef : Extracted) :
    (enrichCity cl d ef).phone_number = ef.phone_number := by
  simp only [enrichCity]
  repeat first
  | rfl
  | split

@[simp] lemma mkExtracted_fields (pt : String → String) (resp : AIResponse) :
    (mkExtracted pt resp).full_name = resp.full_name ∧
    (mkExtracted pt resp).event_type = resp.event_type ∧
    (mkExtracted pt resp).event_date = validateDate pt resp.event_date ∧
    (mkExtracted pt resp).venue = resp.venue ∧
    (mkExtracted pt resp).phone_number = resp.phone_number := by
  exact ⟨rfl, rfl, rfl, rfl, rfl⟩

/-! ## `fieldsToUpdate` characterisations -/

lemma ftu_phone_some (d : Deal) (ef : Extracted) (missing : List String)
    (h : pyStrip ef.phone_number ≠ "") :
    (fieldsToUpdate d ef missing).phone_number = some ef.phone_number := by
  unfold fieldsToUpdate mergeFM fallbackUpdates missingUpdates changedFields changedFieldVal
  by_cases hc : pyLower (pyStrip d.phone_number) = pyLower (pyStrip ef.phone_number) <;>
    by_cases hm : missing.contains "phone_number" = true <;>
      simp_all [Option.orElse]

lemma ftu_venue_some (d : Deal) (ef : Extracted) (missing : List String)
    (h : pyStrip ef.venue ≠ "") :
    (fieldsToUpdate d ef missing).venue = some ef.venue := by
  unfold fieldsToUpdate mergeFM fallbackUpdates missingUpdates changedFields changedFieldVal
  by_cases hc : pyLower (pyStrip d.venue) = pyLower (pyStrip ef.venue) <;>
    by_cases hm : missing.contains "venue" = true <;>
      simp_all [Option.orElse]

lemma ftu_event_date_some (d : Deal) (ef : Extracted) (missing : List String)
    (h : pyStrip ef.event_date ≠ "") :
    (fieldsToUpdate d ef missing).event_date = some ef.event_date := by
  unfold fieldsToUpdate mergeFM fallbackUpdates missingUpdates changedFields changedFieldVal
  by_cases hc : pyLower (pyStrip d.event_date) = pyLower (pyStrip ef.event_date) <;>
    by_cases hm : missing.contains "event_date" = true <;>
      simp_all [Option.orElse]

lemma ftu_event_date_val (d : Deal) (ef : Extracted) (missing : List String) (v : String)
    (h : (fieldsToUpdate d ef missing).event_date = some v) :
    v = ef.event_date ∧ pyStrip v ≠ "" := by
  unfold fieldsToUpdate mergeFM fallbackUpdates missingUpdates changedFields changedFieldVal at h
  simp only [Option.orElse] at h
  split_ifs at h <;> simp_all

lemma ftu_venue_val (d : Deal) (ef : Extracted) (missing : List String) (v : String)
    (h : (fieldsToUpdate d ef missing).venue = some v) :
    v = ef.venue ∧ pyStrip v ≠ "" := by
  unfold fieldsToUpdate mergeFM fallbackUpdates missingUpdates changedFields changedFieldVal at h
  simp only [Option.orElse] at h
  split_ifs at h <;> simp_all

lemma ftu_phone_val (d : Deal) (ef : Extracted) (missing : List String) (v : String)
    (h : (fieldsToUpdate d ef missing).phone_number = some v) :
    v = ef.phone_number ∧ pyStrip v ≠ "" := by
  unfold fieldsToUpdate mergeFM fallbackUpdates missingUpdates changedFields changedFieldVal at h
  simp only [Option.orElse] at h
  split_ifs at h <;> simp_all

lemma fmIsEmpty_false_of_phone (m : FieldMap) (v : String) (h : m.phone_number = some v) :
    fmIsEmpty m = false := by
  simp [fmIsEmpty, h]

lemma fmIsEmpty_false_of_venue (m : FieldMap) (v : String) (h : m.venue = some v) :
    fmIsEmpty m = false := by
  simp [fmIsEmpty, h]

/-! ## `missingFieldsOf` characterisations -/

lemma missingFieldsOf_nil_iff (d : Deal) :
    missingFieldsOf d = [] ↔
      d.event_date ≠ "" ∧ pyStrip d.venue ≠ "" ∧ pyStrip d.phone_number ≠ "" := by
  unfold missingFieldsOf
  split_ifs <;> simp_all

lemma missingFieldsOf_phone_only (d : Deal) (hed : d.event_date ≠ "")
    (hv : pyStrip d.venue ≠ "") (hp : pyStrip d.phone_number = "") :
    missingFieldsOf d = ["phone_number"] := by
  unfold missingFieldsOf
  split_ifs <;> simp_all

lemma missingFieldsOf_mem_key (d : Deal) (k : String) (h : k ∈ missingFieldsOf d) :
    k = "event_date" ∨ k = "venue" ∨ k = "phone_number" := by
  unfold missingFieldsOf at h
  split_ifs at h <;> simp_all <;> tauto

/-! ## Flag-only updates preserve the collected columns -/

@[simp] lemma resetProvidedFlags_user_name (d : Deal) (i : RefusalInfo) :
    (resetProvidedFlags d i).user_name = d.user_name := by
  unfold resetProvidedFlags update_deal_fields
  split_ifs <;> rfl

@[simp] lemma resetProvidedFlags_event_type (d : Deal) (i : RefusalInfo) :
    (resetProvidedFlags d i).event_type = d.event_type := by
  unfold resetProvidedFlags update_deal_fields
  split_ifs <;> rfl

@[simp] lemma resetProvidedFlags_event_date (d : Deal) (i : RefusalInfo) :
    (resetProvidedFlags d i).event_date = d.event_date := by
  unfold resetProvidedFlags update_deal_fields
  split_ifs <;> rfl

@[simp] lemma resetProvidedFlags_venue (d : Deal) (i : RefusalInfo) :
    (resetProvidedFlags d i).venue = d.venue := by
  unfold resetProvidedFlags update_deal_fields
  split_ifs <;> rfl

@[simp] lemma resetProvidedFlags_phone_number (d : Deal) (i : RefusalInfo) :
    (resetProvidedFlags d i).phone_number = d.phone_number := by
  unfold resetProvidedFlags update_deal_fields
  split_ifs <;> rfl

@[simp] lemma resetProvidedFlags_final (d : Deal) (i : RefusalInfo) :
    (resetProvidedFlags d i).final_thank_you_sent = d.final_thank_you_sent := by
  unfold resetProvidedFlags update_deal_fields
  split_ifs <;> rfl

/-! ## Further string/list helper lemmas -/

lemma pyStrip_ne_empty (s : String) (h : pyStrip s ≠ "") : s ≠ "" := by
  intro hs
  exact h (by rw [hs]; rfl)

lemma pyLower_eq_empty_iff (s : String) : pyLower s = "" ↔ s = "" := by
  constructor
  · intro h
    cases s with
    | mk data =>
      cases data with
      | nil => rfl
      | cons c r => simp [pyLower, String.ext_iff] at h
  · intro h
    rw [h]
    rfl

/-- The remaining `fieldsToUpdate` entry lemmas (fill-style fields). -/
lemma ftu_full_name_some (d : Deal) (ef : Extracted) (missing : List String)
    (h : pyStrip ef.full_name ≠ "") :
    (fieldsToUpdate d ef missing).full_name = some ef.full_name := by
  have hlow : pyLower (pyStrip ef.full_name) ≠ "" := by
    rw [ne_eq, pyLower_eq_empty_iff]
    exact h
  have hlow2 : "" ≠ pyLower (pyStrip ef.full_name) := Ne.symm hlow
  have h0 : pyLower (pyStrip "") = "" := rfl
  unfold fieldsToUpdate mergeFM fallbackUpdates missingUpdates changedFields changedFieldVal
  by_cases hm : missing.contains "full_name" = true <;>
    simp_all [Option.orElse, h0]

lemma ftu_event_type_some (d : Deal) (ef : Extracted) (missing : List String)
    (h : pyStrip ef.event_type ≠ "") :
    (fieldsToUpdate d ef missing).event_type = some ef.event_type := by
  unfold fieldsToUpdate mergeFM fallbackUpdates missingUpdates changedFields changedFieldVal
  by_cases hc : pyLower (pyStrip d.event_type) = pyLower (pyStrip ef.event_type) <;>
    by_cases hm : missing.contains "event_type" = true <;>
      simp_all [Option.orElse]

/-- Membership of a field's key in the missing list, from the per-field
emptiness fact. -/
lemma missing_contains_of_empty (d : Deal) (f : ReqField) (h : f.emptyIn d = true) :
    (missingFieldsOf d).contains f.key = true := by
  cases f <;> simp_all [ReqField.emptyIn, ReqField.key, missingFieldsOf]

lemma missing_ne_nil_of_empty (d : Deal) (f : ReqField) (h : f.emptyIn d = true) :
    (missingFieldsOf d == []) = false := by
  cases f <;> simp_all [ReqField.emptyIn, missingFieldsOf]

/-! ## The anti-nag blocked branch -/

/-- When some field was asked, is still missing, and the response did not
supply it, the flag-refusal logic blocks the reply. -/
lemma refusal_blocked_cond (d : Deal) (resp : AIResponse) (missing : List String) (f : ReqField)
    (hasked : f.asked d = true)
    (hmem : missing.contains f.key = true)
    (hnosupply : pyStrip (f.supplied resp) = "") :
    ((d.contact_number_asked || d.event_date_asked || d.venue_asked) &&
      !(refusalInfo d resp missing).allFalse &&
      ((refusalInfo d resp missing).blockCN || (refusalInfo d resp missing).blockED ||
        (refusalInfo d resp missing).blockV)) = true := by
  cases f <;>
    simp_all [refusalInfo, ReqField.asked, ReqField.key, ReqField.supplied]

/-- The flow lands in the blocked branch under the anti-nag hypotheses. -/
lemma flow_reaches_blocked (env : FlowEnv) (d : Deal) (resp regen : AIResponse) (f : ReqField)
    (hasked : f.asked d = true) (hempty : f.emptyIn d = true)
    (hnosupply : pyStrip (f.supplied resp) = "") :
    handle_user_message_flow env false d resp regen =
      blockedBranch env d resp (missingFieldsOf d) (refusalInfo d resp (missingFieldsOf d)) := by
  have hne := missing_ne_nil_of_empty d f hempty
  have hcond := refusal_blocked_cond d resp (missingFieldsOf d) f hasked
    (missing_contains_of_empty d f hempty) hnosupply
  unfold handle_user_message_flow flowCollect
  simp only [Bool.false_eq_true, if_false, hne, hcond, if_true]

lemma blockedBranch_sent (env : FlowEnv) (d : Deal) (resp : AIResponse)
    (missing : List String) (info : RefusalInfo) :
    (blockedBranch env d resp missing info).sent = [] := rfl

lemma blockedBranch_venue (env : FlowEnv) (d : Deal) (resp : AIResponse)
    (missing : List String) (info : RefusalInfo) (h : pyStrip resp.venue ≠ "") :
    (blockedBranch env d resp missing info).deal.venue = resp.venue := by
  have hef : (enrichCity env.cityLookup d (mkExtracted env.parseTail resp)).venue = resp.venue := by
    simp [mkExtracted]
  have hftu : (fieldsToUpdate d (enrichCity env.cityLookup d
      (mkExtracted env.parseTail resp)) missing).venue = some resp.venue := by
    have hh := ftu_venue_some d (enrichCity env.cityLookup d (mkExtracted env.parseTail resp))
      missing (by rw [hef]; exact h)
    rwa [hef] at hh
  have hne : fmIsEmpty (fieldsToUpdate d (enrichCity env.cityLookup d
      (mkExtracted env.parseTail resp)) missing) = false :=
    fmIsEmpty_false_of_venue _ _ hftu
  unfold blockedBranch
  simp only [hne, Bool.not_false, if_true, resetProvidedFlags_venue,
    update_deal_fields, fmKwargs, hftu]
  exact overwriteIfChanged_some _ _ (pyStrip_ne_empty _ h)

lemma blockedBranch_phone (env : FlowEnv) (d : Deal) (resp : AIResponse)
    (missing : List String) (info : RefusalInfo) (h : pyStrip resp.phone_number ≠ "") :
    (blockedBranch env d resp missing info).deal.phone_number = resp.phone_number := by
  have hef : (enrichCity env.cityLookup d (mkExtracted env.parseTail resp)).phone_number
      = resp.phone_number := by
    simp [mkExtracted]
  have hftu : (fieldsToUpdate d (enrichCity env.cityLookup d
      (mkExtracted env.parseTail resp)) missing).phone_number = some resp.phone_number := by
    have hh := ftu_phone_some d (enrichCity env.cityLookup d (mkExtracted env.parseTail resp))
      missing (by rw [hef]; exact h)
    rwa [hef] at hh
  have hne : fmIsEmpty (fieldsToUpdate d (enrichCity env.cityLookup d
      (mkExtracted env.parseTail resp)) missing) = false :=
    fmIsEmpty_false_of_phone _ _ hftu
  unfold blockedBranch
  simp only [hne, Bool.not_false, if_true, resetProvidedFlags_phone_number,
    update_deal_fields, fmKwargs, hftu]
  exact overwriteIfChanged_some _ _ (pyStrip_ne_empty _ h)

lemma blockedBranch_event_date (env : FlowEnv) (d : Deal) (resp : AIResponse)
    (missing : List String) (info : RefusalInfo)
    (h : pyStrip (validateDate env.parseTail resp.event_date) ≠ "") :
    (blockedBranch env d resp missing info).deal.event_date =
      validateDate env.parseTail resp.event_date := by
  have hef : (enrichCity env.cityLookup d (mkExtracted env.parseTail resp)).event_date
      = validateDate env.parseTail resp.event_date := by
    simp [mkExtracted]
  have hftu : (fieldsToUpdate d (enrichCity env.cityLookup d
      (mkExtracted env.parseTail resp)) missing).event_date
      = some (validateDate env.parseTail resp.event_date) := by
    have hh := ftu_event_date_some d (enrichCity env.cityLookup d (mkExtracted env.parseTail resp))
      missing (by rw [hef]; exact h)
    rwa [hef] at hh
  have hne : fmIsEmpty (fieldsToUpdate d (enrichCity env.cityLookup d
      (mkExtracted env.parseTail resp)) missing) = false := by
    simp [fmIsEmpty, hftu]
  unfold blockedBranch
  simp only [hne, Bool.not_false, if_true, resetProvidedFlags_event_date,
    update_deal_fields, fmKwargs, hftu]
  exact overwriteIfChanged_some _ _ (pyStrip_ne_empty _ h)

lemma blockedBranch_user_name (env : FlowEnv) (d : Deal) (resp : AIResponse)
    (missing : List String) (info : RefusalInfo)
    (hcur : pyStrip d.user_name = "") (h : pyStrip resp.full_name ≠ "") :
    (blockedBranch env d resp missing info).deal.user_name = resp.full_name := by
  have hef : (enrichCity env.cityLookup d (mkExtracted env.parseTail resp)).full_name
      = resp.full_name := by
    simp [mkExtracted]
  have hftu : (fieldsToUpdate d (enrichCity env.cityLookup d
      (mkExtracted env.parseTail resp)) missing).full_name = some resp.full_name := by
    have hh := ftu_full_name_some d (enrichCity env.cityLookup d (mkExtracted env.parseTail resp))
      missing (by rw [hef]; exact h)
    rwa [hef] at hh
  have hne : fmIsEmpty (fieldsToUpdate d (enrichCity env.cityLookup d
      (mkExtracted env.parseTail resp)) missing) = false := by
    simp [fmIsEmpty, hftu]
  unfold blockedBranch
  simp only [hne, Bool.not_false, if_true, resetProvidedFlags_user_name,
    update_deal_fields, fmKwargs, hftu]
  exact fillIfEmpty_some _ _ (pyStrip_ne_empty _ h) hcur

lemma thankYouSave_ftu_nonempty (env : FlowEnv) (d : Deal) (resp : AIResponse)
    (msg : String) (csd : Bool) :
    thankYouSave env d resp msg csd false = d := by
  unfold thankYouSave
  simp

lemma askedFlagSets_nil (d : Deal) (msg : String) :
    askedFlagSets d msg [] = d := by
  unfold askedFlagSets
  simp

/-- `mainStage` on a lead missing exactly the phone number, when the
response supplies it: the phone is persisted, the reply is overridden with
the fixed acknowledgment, the recomputed missing list is empty, and the
contact-number asked flag is reset (lines 994-998 run because
`phone_number` is among the updated fields). -/
lemma mainStage_phone_case (env : FlowEnv) (d : Deal) (resp regen : AIResponse)
    (hed : d.event_date ≠ "") (hv : pyStrip d.venue ≠ "") (hp : pyStrip d.phone_number = "")
    (hsup : pyStrip resp.phone_number ≠ "") :
    (mainStage env d resp regen ["phone_number"]).message = ackOnCompletion ∧
    (mainStage env d resp regen ["phone_number"]).missing = [] ∧
    (mainStage env d resp regen ["phone_number"]).deal.phone_number = resp.phone_number ∧
    (mainStage env d resp regen ["phone_number"]).deal.contact_number_asked = false ∧
    (mainStage env d resp regen ["phone_number"]).deal.final_thank_you_sent =
      d.final_thank_you_sent ∧
    missingFieldsOf (mainStage env d resp regen ["phone_number"]).deal = [] ∧
    fmIsEmpty (mainStage env d resp regen ["phone_number"]).ftu = false := by
  have hefp : (enrichCity env.cityLookup d (mkExtracted env.parseTail resp)).phone_number
      = resp.phone_number := by simp [mkExtracted]
  have hftup : (fieldsToUpdate d (enrichCity env.cityLookup d (mkExtracted env.parseTail resp))
      ["phone_number"]).phone_number = some resp.phone_number := by
    have hh := ftu_phone_some d (enrichCity env.cityLookup d (mkExtracted env.parseTail resp))
      ["phone_number"] (by rw [hefp]; exact hsup)
    rwa [hefp] at hh
  have hne : fmIsEmpty (fieldsToUpdate d (enrichCity env.cityLookup d
      (mkExtracted env.parseTail resp)) ["phone_number"]) = false :=
    fmIsEmpty_false_of_phone _ _ hftup
  -- facts about the deal after the first repository write
  have h1p : (update_deal_fields d (fmKwargs (fieldsToUpdate d (enrichCity env.cityLookup d
      (mkExtracted env.parseTail resp)) ["phone_number"]))).phone_number = resp.phone_number := by
    simp only [update_deal_fields, fmKwargs, hftup]
    exact overwriteIfChanged_some _ _ (pyStrip_ne_empty _ hsup)
  have h1e : (update_deal_fields d (fmKwargs (fieldsToUpdate d (enrichCity env.cityLookup d
      (mkExtracted env.parseTail resp)) ["phone_number"]))).event_date ≠ "" := by
    simp only [update_deal_fields, fmKwargs]
    cases hfe : (fieldsToUpdate d (enrichCity env.cityLookup d
        (mkExtracted env.parseTail resp)) ["phone_number"]).event_date with
    | none => simpa using hed
    | some v =>
      obtain ⟨-, hvs⟩ := ftu_event_date_val d _ _ v hfe
      rw [overwriteIfChanged_some _ _ (pyStrip_ne_empty _ hvs)]
      exact pyStrip_ne_empty _ hvs
  have h1v : pyStrip (update_deal_fields d (fmKwargs (fieldsToUpdate d (enrichCity env.cityLookup d
      (mkExtracted env.parseTail resp)) ["phone_number"]))).venue ≠ "" := by
    simp only [update_deal_fields, fmKwargs]
    cases hfv : (fieldsToUpdate d (enrichCity env.cityLookup d
        (mkExtracted env.parseTail resp)) ["phone_number"]).venue with
    | none => simpa using hv
    | some v =>
      obtain ⟨-, hvs⟩ := ftu_venue_val d _ _ v hfv
      rw [overwriteIfChanged_some _ _ (pyStrip_ne_empty _ hvs)]
      exact hvs
  have h1missing : missingFieldsOf (update_deal_fields d (fmKwargs (fieldsToUpdate d
      (enrichCity env.cityLookup d (mkExtracted env.parseTail resp)) ["phone_number"]))) = [] := by
    rw [missingFieldsOf_nil_iff]
    exact ⟨h1e, h1v, by rw [h1p]; exact hsup⟩
  have hrp : resp.phone_number ≠ "" := pyStrip_ne_empty _ hsup
  rcases hfe : (fieldsToUpdate d (enrichCity env.cityLookup d (mkExtracted env.parseTail resp))
      ["phone_number"]).event_date with _ | ved <;>
  rcases hfv : (fieldsToUpdate d (enrichCity env.cityLookup d (mkExtracted env.parseTail resp))
      ["phone_number"]).venue with _ | vv <;>
  rcases hft : (fieldsToUpdate d (enrichCity env.cityLookup d (mkExtracted env.parseTail resp))
      ["phone_number"]).event_type with _ | vt
  all_goals
    try have hved : pyStrip ved ≠ "" := (ftu_event_date_val d _ _ ved hfe).2
  all_goals
    try have hvv : pyStrip vv ≠ "" := (ftu_venue_val d _ _ vv hfv).2
  all_goals
    try have hved' : ved ≠ "" := pyStrip_ne_empty _ hved
  all_goals
    try have hvv' : vv ≠ "" := pyStrip_ne_empty _ hvv
  all_goals
    unfold mainStage
  all_goals
    simp only [hfe, hfv, hft, hftup, hne, h1missing, Option.isSome_some, Option.isSome_none,
      Bool.or_true, Bool.true_or, Bool.or_false, Bool.false_or, Bool.not_false, if_true,
      Bool.false_eq_true, if_false, Bool.true_and, Bool.and_true,
      show ((["phone_number"] : List String) == []) = false from rfl,
      show ((["phone_number"] : List String) != []) = true from rfl,
      show (([] : List String) == []) = true from rfl]
  all_goals
    simp_all [update_deal_fields, fmKwargs, missingFieldsOf_nil_iff,
      overwriteIfChanged_some, fmIsEmpty]

lemma blockedBranch_event_type (env : FlowEnv) (d : Deal) (resp : AIResponse)
    (missing : List String) (info : RefusalInfo)
    (hcur : pyStrip d.event_type = "") (h : pyStrip resp.event_type ≠ "") :
    (blockedBranch env d resp missing info).deal.event_type = resp.event_type := by
  have hef : (enrichCity env.cityLookup d (mkExtracted env.parseTail resp)).event_type
      = resp.event_type := by
    simp [mkExtracted]
  have hftu : (fieldsToUpdate d (enrichCity env.cityLookup d
      (mkExtracted env.parseTail resp)) missing).event_type = some resp.event_type := by
    have hh := ftu_event_type_some d (enrichCity env.cityLookup d (mkExtracted env.parseTail resp))
      missing (by rw [hef]; exact h)
    rwa [hef] at hh
  have hne : fmIsEmpty (fieldsToUpdate d (enrichCity env.cityLookup d
      (mkExtracted env.parseTail resp)) missing) = false := by
    simp [fmIsEmpty, hftu]
  unfold blockedBranch
  simp only [hne, Bool.not_false, if_true, resetProvidedFlags_event_type,
    update_deal_fields, fmKwargs, hftu]
  exact fillIfEmpty_some _ _ (pyStrip_ne_empty _ h) hcur

/-! ## The flag-preservation lemmas of the collection pipeline -/

lemma mainStage_final (env : FlowEnv) (d : Deal) (resp regen : AIResponse)
    (missing : List String) :
    (mainStage env d resp regen missing).deal.final_thank_you_sent = d.final_thank_you_sent := by
  simp only [mainStage, apply_ite MainOut.deal, apply_ite Deal.final_thank_you_sent,
    update_deal_fields, update_deal_fields_force, fmKwargs, setFlagOpt_none, setFlagForce_none,
    ite_self]

lemma thankYouSave_final (env : FlowEnv) (d : Deal) (resp : AIResponse) (msg : String)
    (csd b : Bool) :
    (thankYouSave env d resp msg csd b).final_thank_you_sent = d.final_thank_you_sent := by
  simp only [thankYouSave, apply_ite Deal.final_thank_you_sent, update_deal_fields,
    setFlagOpt_none, ite_self]

lemma askedFlagSets_final (d : Deal) (msg : String) (missing : List String) :
    (askedFlagSets d msg missing).final_thank_you_sent = d.final_thank_you_sent := by
  simp only [askedFlagSets, apply_ite Deal.final_thank_you_sent, update_deal_fields,
    setFlagOpt_none, ite_self]

lemma greetingFlagKeyword_final (d : Deal) (original : String) (missing : List String) :
    (greetingFlagKeyword d original missing).final_thank_you_sent = d.final_thank_you_sent := by
  simp only [greetingFlagKeyword, apply_ite Deal.final_thank_you_sent, update_deal_fields,
    setFlagOpt_none, ite_self]

lemma blockedBranch_final (env : FlowEnv) (d : Deal) (resp : AIResponse)
    (missing : List String) (info : RefusalInfo) :
    (blockedBranch env d resp missing info).deal.final_thank_you_sent =
      d.final_thank_you_sent := by
  simp only [blockedBranch, resetProvidedFlags_final, apply_ite Deal.final_thank_you_sent,
    update_deal_fields, fmKwargs, setFlagOpt_none, ite_self]

lemma greetingBranch_final_mono (env : FlowEnv) (d : Deal) (resp : AIResponse)
    (missing : List String) (h : d.final_thank_you_sent = true) :
    (greetingBranch env d resp missing).deal.final_thank_you_sent = true := by
  simp only [greetingBranch, apply_ite FlowResult.deal, apply_ite Deal.final_thank_you_sent,
    update_deal_fields, setFlagOpt_some, greetingFlagKeyword_final, ite_self, h]

lemma flowAfterRefusal_final_mono (env : FlowEnv) (d : Deal) (resp regen : AIResponse)
    (missing : List String) (csd : Bool) (h : d.final_thank_you_sent = true) :
    (flowAfterRefusal env d resp regen missing csd).deal.final_thank_you_sent = true := by
  simp only [flowAfterRefusal]
  split_ifs with h1 h2 h3
  · exact h
  · simp [askedFlagSets_final, update_deal_fields]
  · exact greetingBranch_final_mono _ _ _ _ (by rw [thankYouSave_final, mainStage_final]; exact h)
  · simp [askedFlagSets_final, thankYouSave_final, mainStage_final, h]

lemma flowCollect_final_mono (env : FlowEnv) (d : Deal) (resp regen : AIResponse)
    (missing : List String) (h : d.final_thank_you_sent = true) :
    (flowCollect env d resp regen missing).deal.final_thank_you_sent = true := by
  simp only [flowCollect]
  split_ifs with h1 h2
  · rw [blockedBranch_final]; exact h
  · exact flowAfterRefusal_final_mono _ _ _ _ _ _ (by rw [resetProvidedFlags_final]; exact h)
  · exact flowAfterRefusal_final_mono _ _ _ _ _ _ h

lemma handle_final_mono (env : FlowEnv) (c : Bool) (d : Deal) (resp regen : AIResponse)
    (h : d.final_thank_you_sent = true) :
    (handle_user_message_flow env c d resp regen).deal.final_thank_you_sent = true := by
  simp only [handle_user_message_flow]
  split_ifs with h1 h2
  · exact h
  · simp [flowComplete, h, update_deal_fields]
  · exact flowCollect_final_mono _ _ _ _ _ h

/-- A complete lead whose final flag is already raised gets no further
outbound text and is not modified (lines 576-579 and 626-637). -/
lemma flow_silent_of_complete (env : FlowEnv) (c : Bool) (d : Deal) (resp regen : AIResponse)
    (hm : missingFieldsOf d = []) (hflag : d.final_thank_you_sent = true) :
    (handle_user_message_flow env c d resp regen).sent = [] ∧
    (handle_user_message_flow env c d resp regen).deal = d := by
  cases c <;> simp [handle_user_message_flow, flowComplete, hm, hflag]

/-! ## The end-to-end phone-completion scenario -/

/-- `flowAfterRefusal` on a lead missing exactly the phone number, when the
response supplies it: the acknowledgment is sent, the phone persisted, the
contact flag reset, the final flag raised, and the lead complete. -/
lemma flowAfterRefusal_phone_case (env : FlowEnv) (d : Deal) (resp regen : AIResponse)
    (csd : Bool)
    (hed : d.event_date ≠ "") (hv : pyStrip d.venue ≠ "") (hp : pyStrip d.phone_number = "")
    (hsup : pyStrip resp.phone_number ≠ "") (hnm : resp.message_to_be_sent ≠ "NO_MESSAGE") :
    (flowAfterRefusal env d resp regen ["phone_number"] csd).sent = [ackOnCompletion] ∧
    (flowAfterRefusal env d resp regen ["phone_number"] csd).deal.phone_number =
      resp.phone_number ∧
    (flowAfterRefusal env d resp regen ["phone_number"] csd).deal.contact_number_asked = false ∧
    (flowAfterRefusal env d resp regen ["phone_number"] csd).deal.final_thank_you_sent = true ∧
    missingFieldsOf (flowAfterRefusal env d resp regen ["phone_number"] csd).deal = [] := by
  obtain ⟨hmsg, hmiss, hphp, hcn, -, hmf, hfm⟩ :=
    mainStage_phone_case env d resp regen hed hv hp hsup
  obtain ⟨hie, hiv, hip⟩ := (missingFieldsOf_nil_iff _).mp hmf
  have hnm' : (resp.message_to_be_sent == "NO_MESSAGE") = false := by
    simp [hnm]
  have hred : flowAfterRefusal env d resp regen ["phone_number"] csd =
      ⟨update_deal_fields (mainStage env d resp regen ["phone_number"]).deal
          { final_thank_you_sent := some true },
        [ackOnCompletion], true, "Processed"⟩ := by
    unfold flowAfterRefusal
    simp only [hnm', Bool.false_eq_true, if_false, hfm, hmsg, hmiss,
      thankYouSave_ftu_nonempty, askedFlagSets_nil, beq_self_eq_true, if_true,
      eq_self_iff_true]
  rw [hred]
  refine ⟨rfl, ?_, ?_, ?_, ?_⟩
  · simp [update_deal_fields, hphp]
  · simp [update_deal_fields, hcn]
  · simp [update_deal_fields]
  · rw [missingFieldsOf_nil_iff]
    refine ⟨?_, ?_, ?_⟩ <;> simp [update_deal_fields, hie, hiv, hip]

/-- `flowCollect` in the same scenario: the anti-nag guard cannot fire
because the phone is supplied and the other keys are not missing. -/
lemma flowCollect_phone_case (env : FlowEnv) (d : Deal) (resp regen : AIResponse)
    (hed : d.event_date ≠ "") (hv : pyStrip d.venue ≠ "") (hp : pyStrip d.phone_number = "")
    (hsup : pyStrip resp.phone_number ≠ "") (hnm : resp.message_to_be_sent ≠ "NO_MESSAGE") :
    (flowCollect env d resp regen ["phone_number"]).sent = [ackOnCompletion] ∧
    (flowCollect env d resp regen ["phone_number"]).deal.phone_number = resp.phone_number ∧
    (flowCollect env d resp regen ["phone_number"]).deal.contact_number_asked = false ∧
    (flowCollect env d resp regen ["phone_number"]).deal.final_thank_you_sent = true ∧
    missingFieldsOf (flowCollect env d resp regen ["phone_number"]).deal = [] := by
  have hblk : ((d.contact_number_asked || d.event_date_asked || d.venue_asked) &&
      !(refusalInfo d resp ["phone_number"]).allFalse &&
      ((refusalInfo d resp ["phone_number"]).blockCN ||
        (refusalInfo d resp ["phone_number"]).blockED ||
        (refusalInfo d resp ["phone_number"]).blockV)) = false := by
    simp [refusalInfo, hsup]
  simp only [flowCollect, hblk, Bool.false_eq_true, if_false]
  split_ifs with h1
  · exact flowAfterRefusal_phone_case env _ resp regen _
      (by simp [hed]) (by simp [hv]) (by simp [hp]) hsup hnm
  · exact flowAfterRefusal_phone_case env d resp regen _ hed hv hp hsup hnm

/-! ## Claim theorems -/

/-- C1.  For every inbound message event whose (non-empty) message id is
already recorded in the deduplication ledger, `_handle_post_request`
returns with HTTP 200 before resolving the vendor or invoking the message
flow: no outbound send is produced and the server state (ledger and every
lead) is unchanged, for every collaborator outcome and every message-flow
behaviour. -/
theorem c1_duplicate_message_id_is_noop (env : PostEnv) (flow : ServerState → FlowOut)
    (st : ServerState) (ev : WebhookEvent)
    (hmid : ev.message_id ≠ "")
    (hrec : st.processed.contains ev.message_id = true) :
    (handle_post_request env flow st ev).sent = [] ∧
    (handle_post_request env flow st ev).state = st ∧
    (handle_post_request env flow st ev).status = 200 := by
  have hmem : ev.message_id ∈ st.processed := by simpa using hrec
  unfold handle_post_request
  cases env.validateRes <;> cases env.skip <;>
    simp [is_message_processed, hrec, hmem, hmid]

/-- C1 witness: a concrete already-recorded message id. -/
theorem c1_witness :
    (handle_post_request postEnvW flowW stW evW).sent = [] ∧
    (handle_post_request postEnvW flowW stW evW).state = stW ∧
    (handle_post_request postEnvW flowW stW evW).status = 200 :=
  c1_duplicate_message_id_is_noop postEnvW flowW stW evW (by decide) (by decide)

/-- C7 counterexample.  The claim says `mark_message_as_processed` returns
`False` whenever a record for the message id already exists; in fact the
existing-record path rewrites the row and returns `True` (only the
concurrent `IntegrityError` path returns `False`). -/
theorem c7_counterexample :
    mark_message_as_processed ["mid-1"] "mid-1" false = (true, ["mid-1"]) := by
  decide

/-- C7 amended.  (1) When a record for the message id already exists at
call time, `mark_message_as_processed` updates it and returns `True`,
leaving the id set unchanged; `False` is returned only when a concurrent
duplicate wins the insert race on the uniqueness constraint (or on a DB
error).  (2) In `_handle_post_request` the record is written before any
reply is generated or sent: the handler's result depends only on the
message flow's behaviour on states whose ledger already contains the
message id.  (3) A losing concurrent duplicate exits as a no-op: HTTP 200,
no sends, state unchanged. -/
theorem c7_amended :
    (∀ (processed : List String) (mid : String) (race : Bool),
        processed.contains mid = true →
        mark_message_as_processed processed mid race = (true, processed)) ∧
    (∀ (env : PostEnv) (flow₁ flow₂ : ServerState → FlowOut) (st : ServerState)
        (ev : WebhookEvent),
        ev.message_id ≠ "" →
        (∀ s : ServerState, s.processed.contains ev.message_id = true → flow₁ s = flow₂ s) →
        handle_post_request env flow₁ st ev = handle_post_request env flow₂ st ev) ∧
    (∀ (env : PostEnv) (flow : ServerState → FlowOut) (st : ServerState) (ev : WebhookEvent),
        env.validateRes = none → env.skip = none → env.vendorFound = true →
        env.race = true → ev.message_id ≠ "" →
        st.processed.contains ev.message_id = false →
        (handle_post_request env flow st ev).sent = [] ∧
        (handle_post_request env flow st ev).state = st ∧
        (handle_post_request env flow st ev).body =
          "Message already processed by another brideside user") := by
  refine ⟨?_, ?_, ?_⟩
  · intro processed mid race h
    have hmem : mid ∈ processed := by simpa using h
    unfold mark_message_as_processed
    simp [hmem]
  · intro env flow₁ flow₂ st ev hmid hflow
    unfold handle_post_request
    cases env.validateRes <;> cases env.skip <;> try rfl
    by_cases hrec : ev.message_id ∈ st.processed
    · simp [is_message_processed, hrec, hmid]
    · cases hr : env.race
      · have hmark : mark_message_as_processed st.processed ev.message_id false =
            (true, ev.message_id :: st.processed) := by
          unfold mark_message_as_processed
          simp [hrec]
        have hf : flow₁ { st with processed := ev.message_id :: st.processed } =
            flow₂ { st with processed := ev.message_id :: st.processed } :=
          hflow _ (by simp)
        simp [is_message_processed, hrec, hmid, hr, hmark, hf]
      · have hmark : mark_message_as_processed st.processed ev.message_id true =
            (false, st.processed) := by
          unfold mark_message_as_processed
          simp [hrec]
        simp [is_message_processed, hrec, hmid, hr, hmark]
  · intro env flow st ev h1 h2 h3 h4 hmid hrec
    have hmem : ev.message_id ∉ st.processed := by simpa using hrec
    unfold handle_post_request
    rw [h1, h2]
    unfold mark_message_as_processed
    simp [is_message_processed, hrec, hmem, hmid, h3, h4]

/-- C7 witness: a concrete already-recorded id is reported as a success,
not as the duplicate signal. -/
theorem c7_witness :
    mark_message_as_processed ["mid-7"] "mid-7" true = (true, ["mid-7"]) :=
  c7_amended.1 ["mid-7"] "mid-7" true (by decide)

/-- C8.  On a 401 response recognised as an expired token, the dispatcher
invokes the refresh collaborator exactly once with the current credential
and persists the refreshed credential — but the claimed retry never
happens: the retry call in `_handle_token_refresh_and_retry` passes
`(brideside_user.id, sender_id, message)` positionally against the
signature `(sender_id, message, brideside_user, message_id,
sender_username, ...)`, leaving two required parameters unbound, so Python
raises `TypeError` (swallowed into `None`) and the dispatcher returns
`False` with only the original gateway call on the wire. -/
theorem c8_retry_is_never_made :
    send_instagram_message
        (fun c => if c.token == "OLD_TOKEN" then 401 else 200)
        true
        (fun t => if t == "OLD_TOKEN" then some "NEW_TOKEN" else none)
        true true "USER42" "Hello!" "OLD_TOKEN" =
      { result := false,
        gatewayCalls := [⟨"USER42", "Hello!", "OLD_TOKEN"⟩],
        refreshCalls := ["OLD_TOKEN"],
        persistedToken := some "NEW_TOKEN" } ∧
    pyCallBinds sendMessageSig 3 ["access_token"] = false ∧
    pyCallBinds sendMessageSig 5 ["access_token", "user_id"] = true := by
  exact ⟨by decide, by decide, by decide⟩

/-- C9.  `_safe_bool` totally coerces every driver-decoded value to a
boolean — bools pass through, ints/floats/bytes by (big-endian) numeric
truthiness, strings by membership in `('true','1','yes','on')` — and the
byte-encoded, integer, boolean and string representations of one truth
value agree. -/
theorem c9_safe_bool_coercion :
    (∀ v : PyVal, safeBool v = true ∨ safeBool v = false) ∧
    (∀ b : Bool, safeBool (.bool b) = b) ∧
    (∀ n : Int, safeBool (.int n) = decide (n ≠ 0)) ∧
    (∀ q : Rat, safeBool (.float q) = decide (q ≠ 0)) ∧
    (∀ bs : List Nat, safeBool (.bytes bs) = decide (intFromBytesBig bs ≠ 0)) ∧
    safeBool (.bytes [1]) = true ∧ safeBool (.int 1) = true ∧
    safeBool (.bool true) = true ∧ safeBool (.str "true") = true ∧
    safeBool (.str "True") = true ∧ safeBool (.str "1") = true ∧
    safeBool (.bytes [0]) = false ∧ safeBool (.bytes []) = false ∧
    safeBool (.int 0) = false ∧ safeBool (.bool false) = false ∧
    safeBool .none = false ∧ safeBool (.str "false") = false ∧
    safeBool (.str "0") = false := by
  refine ⟨fun v => ?_, fun b => by cases b <;> decide, fun n => ?_, fun q => ?_, fun bs => ?_,
    by decide, by decide, by decide, by decide, by decide, by decide, by decide,
    by decide, by decide, by decide, by decide, by decide, by decide⟩
  · cases h : safeBool v
    · exact Or.inr rfl
    · exact Or.inl rfl
  · by_cases h : n = 0 <;> simp [safeBool, h]
  · by_cases h : q = 0 <;> simp [safeBool, h]
  · by_cases h : intFromBytesBig bs = 0 <;> simp [safeBool, h]

/-- C10.  `validators.is_valid_phone_number` raises `NameError` on every
non-empty string argument because `validators.py` never imports `re`;
`None`, non-string and empty-string inputs return `False` through the
early guard without touching `re`. -/
theorem c10_phone_validator_name_error :
    (∀ s : String, s ≠ "" → is_valid_phone_number (.str s) = .error (.nameError "re")) ∧
    is_valid_phone_number .none = .ok false ∧
    is_valid_phone_number (.int 9876543210) = .ok false ∧
    is_valid_phone_number (.bool false) = .ok false ∧
    is_valid_phone_number (.str "") = .ok false := by
  refine ⟨fun s hs => ?_, rfl, rfl, rfl, rfl⟩
  simp [is_valid_phone_number, pyTruthy, pyIsStr, hs]

/-- C10 witness: a concrete well-formed phone number string still raises. -/
theorem c10_witness :
    is_valid_phone_number (.str "9876543210") = .error (.nameError "re") :=
  c10_phone_validator_name_error.1 "9876543210" (by decide)

/-- C3.  The ask/reset law fails on the code: a lead with
`event_date_asked = true` and `event_date` empty receives a message whose
extraction supplies the date (`"2026-03-15"`); the date is persisted and
the lead completed, but `event_date_asked` is still `true` in the
resulting state — the reset at webhook_service.py lines 1000-1003 is
nested under `if 'full_name' in fields_to_update or 'phone_number' in
fields_to_update:` (line 984), which does not hold here, and the
all-flags-will-be-false branch (line 743) applies no reset either. -/
theorem c3_ask_reset_law_violated :
    (handle_user_message_flow envTriv false
      { venue := "Leela Palace", phone_number := "9876543210", event_date_asked := true }
      { message_to_be_sent := "Perfect, noted!", contains_structured_data := true,
        event_date := "2026-03-15" }
      respNeutral) =
    { deal := { venue := "Leela Palace", phone_number := "9876543210",
                event_date := "2026-03-15", event_date_asked := true,
                final_thank_you_sent := true },
      sent := [ackOnCompletion], ok := true, result := "Processed" } := by
  decide

/-- C5 counterexample.  A lead missing exactly `venue`, with
`venue_asked = true`, receives a message supplying the venue: the venue is
persisted, the lead completes, the fixed acknowledgment is sent and
`final_thank_you_sent` is set — but `venue_asked` remains `true`, so the
claim's asked-flag-reset conjunct is false at this input. -/
theorem c5_counterexample :
    (handle_user_message_flow envTriv false
      { user_name := "alice", event_type := "Wedding", event_date := "2026-05-01",
        phone_number := "9876543210", venue_asked := true }
      { message_to_be_sent := "Great! Noted.", contains_structured_data := true,
        venue := "Taj Palace Mumbai" }
      respNeutral) =
    { deal := { user_name := "alice", event_type := "Wedding", event_date := "2026-05-01",
                phone_number := "9876543210", venue := "Taj Palace Mumbai",
                venue_asked := true, final_thank_you_sent := true },
      sent := [ackOnCompletion], ok := true, result := "Processed" } := by
  decide

/-- C6.  The date policy fails on the code: a greeting-classified response
carrying the year-less date `"15th March"` reaches the thank-you save
block (webhook_service.py lines 1095-1135), which persists the *raw*
response values without `_validate_and_format_date`; the lead's
`event_date` becomes `"15th March"` even though the validator itself maps
that string to `""` for every parse tail (the same unvalidated persistence
occurs in the `GREETING_WITH_DATA` branch at lines 1450-1480). -/
theorem c6_yearless_date_persisted :
    (handle_user_message_flow envTriv false {}
      { message_to_be_sent := "Hello there", is_greeting_message := true,
        event_date := "15th March" }
      respNeutral).deal.event_date = "15th March" ∧
    (∀ parseTail : String → String, validateDate parseTail "15th March" = "") ∧
    hasYear20 "15th March" = false := by
  refine ⟨by decide, fun parseTail => ?_, by decide⟩
  have h1 : (pyStrip "15th March" == "") = false := by decide
  have h2 : isYYYYMMDD (pyStrip "15th March") = false := by decide
  have h3 : (hasDayMonthRe (pyStrip "15th March") && !hasYear20 (pyStrip "15th March")) = true := by
    decide
  unfold validateDate
  simp only [h1, h2, h3, Bool.false_eq_true, if_false, if_true]

/-- C2.  The anti-nag law: for every required field F, if the lead's
F-asked flag is set, F is still empty on the persisted lead, and the
current extraction result does not supply a non-empty value for F, then
the flow produces no outbound message for this event; every other
non-empty extracted value is still persisted — the other two required
fields (the date after `_validate_and_format_date`) are written
unconditionally, and name/event-type are filled when previously empty. -/
theorem c2_anti_nag_law (env : FlowEnv) (d : Deal) (resp regen : AIResponse) (f : ReqField)
    (hasked : f.asked d = true)
    (hempty : f.emptyIn d = true)
    (hnosupply : pyStrip (f.supplied resp) = "") :
    (handle_user_message_flow env false d resp regen).sent = [] ∧
    (pyStrip resp.venue ≠ "" →
      (handle_user_message_flow env false d resp regen).deal.venue = resp.venue) ∧
    (pyStrip resp.phone_number ≠ "" →
      (handle_user_message_flow env false d resp regen).deal.phone_number = resp.phone_number) ∧
    (pyStrip (validateDate env.parseTail resp.event_date) ≠ "" →
      (handle_user_message_flow env false d resp regen).deal.event_date =
        validateDate env.parseTail resp.event_date) ∧
    (pyStrip d.user_name = "" → pyStrip resp.full_name ≠ "" →
      (handle_user_message_flow env false d resp regen).deal.user_name = resp.full_name) ∧
    (pyStrip d.event_type = "" → pyStrip resp.event_type ≠ "" →
      (handle_user_message_flow env false d resp regen).deal.event_type = resp.event_type) := by
  rw [flow_reaches_blocked env d resp regen f hasked hempty hnosupply]
  exact ⟨blockedBranch_sent _ _ _ _ _,
    fun h => blockedBranch_venue _ _ _ _ _ h,
    fun h => blockedBranch_phone _ _ _ _ _ h,
    fun h => blockedBranch_event_date _ _ _ _ _ h,
    fun hc h => blockedBranch_user_name _ _ _ _ _ hc h,
    fun hc h => blockedBranch_event_type _ _ _ _ _ hc h⟩

/-- C2 witness: venue asked and not supplied — no reply, yet the extracted
phone number is persisted to the lead. -/
theorem c2_witness :
    (handle_user_message_flow envTriv false dC2 respC2 respNeutral).sent = [] ∧
    (handle_user_message_flow envTriv false dC2 respC2 respNeutral).deal.phone_number =
      "9876543210" := by
  have h := c2_anti_nag_law envTriv dC2 respC2 respNeutral .venue
    (by decide) (by decide) (by decide)
  exact ⟨h.1, h.2.2.1 (by decide)⟩

/-- C4 counterexample.  The acknowledgment text is not sent at most once
per lead: when the extraction collaborator's suggested reply is literally
the acknowledgment string while the lead is still incomplete, the handler
sends it (and sets the flag) on *every* such message — here twice for the
same lead — because the duplicate-thank-you guard is only consulted once
all required fields are present. -/
theorem c4_counterexample :
    runFlowTrace envTriv {}
      [(false, { message_to_be_sent := "Thank you. Will connect shortly!" }, respNeutral),
       (false, { message_to_be_sent := "Thank you. Will connect shortly!" }, respNeutral)] =
      [["Thank you. Will connect shortly!"], ["Thank you. Will connect shortly!"]] ∧
    (handle_user_message_flow envTriv false {}
      { message_to_be_sent := "Thank you. Will connect shortly!" } respNeutral).deal.final_thank_you_sent = true := by
  exact ⟨by decide, by decide⟩

/-- C5 amended (Scenario B, phone case).  For every existing lead missing
exactly `phone_number` (date present, venue present, phone blank), every
extraction result that supplies a phone number, and every collaborator
environment: the phone is persisted, the outbound message is overridden to
the fixed acknowledgment, `final_thank_you_sent` is set true, the lead
becomes complete, and `contact_number_asked` ends up false — for this
field the reset does run, because `phone_number` is in `fields_to_update`
(line 984); the claim's asked-flag-reset conjunct fails only for the other
two fields (see the counterexample). -/
theorem c5_amended (env : FlowEnv) (d : Deal) (resp regen : AIResponse)
    (hed : d.event_date ≠ "") (hv : pyStrip d.venue ≠ "") (hp : pyStrip d.phone_number = "")
    (hsup : pyStrip resp.phone_number ≠ "") (hnm : resp.message_to_be_sent ≠ "NO_MESSAGE") :
    (handle_user_message_flow env false d resp regen).sent = [ackOnCompletion] ∧
    (handle_user_message_flow env false d resp regen).deal.phone_number = resp.phone_number ∧
    (handle_user_message_flow env false d resp regen).deal.contact_number_asked = false ∧
    (handle_user_message_flow env false d resp regen).deal.final_thank_you_sent = true ∧
    missingFieldsOf (handle_user_message_flow env false d resp regen).deal = [] := by
  have hm := missingFieldsOf_phone_only d hed hv hp
  simp only [handle_user_message_flow, Bool.false_eq_true, if_false, hm,
    show ((["phone_number"] : List String) == []) = false from rfl]
  exact flowCollect_phone_case env d resp regen hed hv hp hsup hnm

/-- C5 witness: the Scenario B lead (`dC5`, phone missing and asked) and a
phone-supplying response. -/
theorem c5_witness :
    (handle_user_message_flow envTriv false dC5 respC5 respNeutral).sent = [ackOnCompletion] ∧
    (handle_user_message_flow envTriv false dC5 respC5 respNeutral).deal.phone_number =
      respC5.phone_number ∧
    (handle_user_message_flow envTriv false dC5 respC5 respNeutral).deal.contact_number_asked
      = false ∧
    (handle_user_message_flow envTriv false dC5 respC5 respNeutral).deal.final_thank_you_sent
      = true ∧
    missingFieldsOf (handle_user_message_flow envTriv false dC5 respC5 respNeutral).deal = [] :=
  c5_amended envTriv dC5 respC5 respNeutral
    (by decide) (by decide) (by decide) (by decide) (by decide)

/-- C4 amended.  For every lead whose `final_thank_you_sent` flag is true:
(i) the flag is still true after any further processed message (every
repository write on every branch either omits the flag or sets it to
`True`); (ii) if the lead is moreover complete, the message produces no
outbound text and leaves the lead unchanged; (iii) hence a complete lead
with the flag set stays silent over every subsequent sequence of
messages.  (The at-most-once part of the claim fails for incomplete
leads — see the counterexample.) -/
theorem c4_amended (env : FlowEnv) (c : Bool) (d : Deal) (resp regen : AIResponse)
    (hflag : d.final_thank_you_sent = true) :
    (handle_user_message_flow env c d resp regen).deal.final_thank_you_sent = true ∧
    (missingFieldsOf d = [] →
      (handle_user_message_flow env c d resp regen).sent = [] ∧
      (handle_user_message_flow env c d resp regen).deal = d) ∧
    (missingFieldsOf d = [] →
      ∀ msgs : List (Bool × AIResponse × AIResponse),
        runFlowTrace env d msgs = msgs.map fun _ => []) := by
  refine ⟨handle_final_mono env c d resp regen hflag,
    fun hm => flow_silent_of_complete env c d resp regen hm hflag,
    fun hm msgs => ?_⟩
  induction msgs with
  | nil => rfl
  | cons x rest ih =>
      obtain ⟨cx, rx, gx⟩ := x
      obtain ⟨hs, hd⟩ := flow_silent_of_complete env cx d rx gx hm hflag
      simp [runFlowTrace, hs, hd, ih]

/-- C4 witness: the complete, flag-set lead `dC4` stays flagged, replies
nothing, and is unchanged over a two-message trace. -/
theorem c4_witness :
    (handle_user_message_flow envTriv false dC4 respC2 respNeutral).deal.final_thank_you_sent
      = true ∧
    (handle_user_message_flow envTriv false dC4 respC2 respNeutral).sent = [] ∧
    runFlowTrace envTriv dC4 [(false, respC2, respNeutral), (false, respC5, respNeutral)] =
      [[], []] := by
  obtain ⟨h1, h2, h3⟩ := c4_amended envTriv false dC4 respC2 respNeutral (by decide)
  refine ⟨h1, (h2 (by decide)).1, ?_⟩
  have h4 := h3 (by decide) [(false, respC2, respNeutral), (false, respC5, respNeutral)]
  simpa using h4

end TBSBot
